import Mathlib

/-!
# Playdroid hwcomposer

A shallow embedding of `src/hwcomposer.cpp` and the properties of it that the
specification states.

Conventions of the embedding.

* A C `int` / `int32_t` is an `Int`; every place where the C code converts to
  `int` or computes in `int` goes through `toInt32` (two's complement wrap).
  C division is `Int.tdiv` (truncation towards zero).
* Unsigned fields (`uint32_t`, `uint64_t`) are `Nat`.
* A pointer that may be null is an `Option`; an array is a `List`.
* A function whose C body can read through a null, indeterminate or
  out-of-range pointer returns an `Option`: `none` is that undefined read.
* Calls into other libraries (`send_message`, `recv_message`, `close`,
  `property_get`) are recorded as effect lists or taken as parameters.
-/

namespace Playdroid

/-! ## Machine integers and error codes -/

/-- The value of a C `int` that is assigned the integer `x`: wrap to 32 bits,
two's complement. -/
def toInt32 (x : Int) : Int := (x + 2 ^ 31) % 2 ^ 32 - 2 ^ 31

/-- The `int` product `a * b`. -/
def int_mul (a b : Int) : Int := toInt32 (a * b)

/-- The `int` quotient `a / b` (C truncates towards zero). -/
def int_div (a b : Int) : Int := toInt32 (Int.tdiv a b)

/-- The errno value `EINVAL`. -/
def EINVAL : Int := 22

/-! ## Constants of `hardware/hwcomposer_defs.h` -/

def HWC_DISPLAY_PRIMARY : Int := 0

def HWC_GEOMETRY_CHANGED : Nat := 1

def HWC_SKIP_LAYER : Nat := 1

def HWC_FRAMEBUFFER : Int := 0

def HWC_OVERLAY : Int := 1

def HWC_FRAMEBUFFER_TARGET : Int := 3

def HWC_VSYNC_PERIOD : Int := 1

def HWC_EVENT_VSYNC : Int := 0

def HWC_DISPLAY_NO_ATTRIBUTE : Nat := 0

def HWC_DISPLAY_VSYNC_PERIOD : Nat := 1

def HWC_DISPLAY_WIDTH : Nat := 2

def HWC_DISPLAY_HEIGHT : Nat := 3

def HWC_DISPLAY_DPI_X : Nat := 4

def HWC_DISPLAY_DPI_Y : Nat := 5

def HWC_DISPLAY_COLOR_TRANSFORM : Nat := 6

def HAL_COLOR_TRANSFORM_IDENTITY : Int := 0

def HWC_HARDWARE_COMPOSER : String := "composer"

/-! ## The allocator backends (the anonymous enum of lines 33-38) -/

def GRALLOC_ANDROID : Int := 0

def GRALLOC_GBM : Int := 1

def GRALLOC_CROS : Int := 2

def GRALLOC_DEFAULT : Int := 3

/-! ## The wire protocol of `playsocket.h` -/

/-- Modelled from the spec: the envelope tag `MessageType` is declared in
`playsocket.h`, which is not among the sources. The four tags are the ones
`hwcomposer.cpp` names; `other` stands for any other bit pattern the variable
can hold (the code reads it after a receive that may not have written it). -/
inductive MessageType where
  | MSG_TYPE_DATA
  | MSG_TYPE_DATA_NEEDS_REPLY
  | MSG_TYPE_DATA_REPLY
  | MSG_TYPE_FD
  | other (raw : Nat)
deriving DecidableEq, Repr

/-- Modelled from the spec: the payload kinds stored in `MessageData.type`,
declared in `playsocket.h`, which is not among the sources (spec 4.1: Hello,
AskForResolution, HaveResolution, HaveBuffer). -/
inductive MessageKind where
  | MSG_HELLO
  | MSG_ASK_FOR_RESOLUTION
  | MSG_HAVE_RESOLUTION
  | MSG_HAVE_BUFFER
  | other (raw : Nat)
deriving DecidableEq, Repr

/-- Modelled from the spec: `struct MessageData` is declared in `playsocket.h`,
which is not among the sources. The fields are the ones `hwcomposer.cpp`
reads and writes, with the widths of spec 6: resolution reply
(width, height, refresh: u32), buffer announcement (format: u32,
modifier: u64, stride: u32, offset: u32). -/
structure MessageData where
  type : MessageKind
  format : Nat
  modifiers : Nat
  stride : Nat
  offset : Nat
  width : Nat
  height : Nat
  refresh_rate : Nat
deriving DecidableEq, Repr

/-- One call `send_message(sock, fd, type, &message)`. -/
structure SendCall where
  sock : Int
  fd : Int
  type : MessageType
  message : MessageData
deriving DecidableEq, Repr

/-! ## Buffer handles -/

/-- The fields of libdrm's `struct gralloc_handle_t` that the code reads. -/
structure gralloc_handle_t where
  prime_fd : Int
  format : Nat
  stride : Nat
  modifier : Nat
deriving DecidableEq, Repr

/-- A C array of `DRV_MAX_PLANES = 4` elements. -/
structure Planes (α : Type) where
  p0 : α
  p1 : α
  p2 : α
  p3 : α
deriving DecidableEq, Repr

/-- The fields of minigbm's `struct cros_gralloc_handle` that the code reads. -/
structure cros_gralloc_handle where
  fds : Planes Int
  strides : Planes Nat
  offsets : Planes Nat
  format : Nat
  format_modifier : Nat
deriving DecidableEq, Repr

/-- What a non-null `buffer_handle_t` points to: a handle laid out by one of
the allocators. The code casts the pointer to the layout of the session's
backend; reading a handle through the layout of another allocator is not
defined. -/
inductive native_handle where
  | gbm (h : gralloc_handle_t)
  | cros (h : cros_gralloc_handle)
  | foreign (id : Nat)
deriving DecidableEq, Repr

/-! ## Frames -/

/-- The fields of `hwc_layer_1_t`. -/
structure hwc_layer_1_t where
  compositionType : Int
  hints : Nat
  flags : Nat
  handle : Option native_handle
  transform : Nat
  blending : Int
  acquireFenceFd : Int
  releaseFenceFd : Int
  planeAlpha : Nat
deriving DecidableEq, Repr

/-- The fields of `hwc_display_contents_1_t`; `numHwLayers` is the length of
`hwLayers`. -/
structure hwc_display_contents_1_t where
  retireFenceFd : Int
  flags : Nat
  hwLayers : List hwc_layer_1_t
deriving DecidableEq, Repr

/-- The argument `hwc_display_contents_1_t** displays`: a possibly null pointer
to an array of possibly null pointers. -/
abbrev Displays := Option (List (Option hwc_display_contents_1_t))

/-! ## The session -/

/-- The data fields of `struct playdroid_hwc_composer_device_1` (lines 40-54).
The dispatch table `base`, the callback table `procs` and the mutex itself
carry no data of the sequential behaviour and are left out. -/
structure playdroid_hwc_composer_device_1 where
  vsync_period_ns : Int
  gtype : Int
  sock : Int
  width : Int
  height : Int
  refresh : Int
  message : MessageData
  vsync_callback_enabled : Bool
deriving DecidableEq, Repr

/-! ## hwc_prepare (lines 56-79) -/

/-- The body of the loop of `hwc_prepare` for one layer (lines 68-74). -/
def prepare_layer (l : hwc_layer_1_t) : hwc_layer_1_t :=
  if l.compositionType = HWC_FRAMEBUFFER_TARGET then l
  else if l.flags &&& HWC_SKIP_LAYER ≠ 0 then l
  else if l.compositionType = HWC_OVERLAY then
    { l with compositionType := HWC_FRAMEBUFFER }
  else l

/-- What `hwc_prepare` returns and the frame set as it leaves it. -/
structure PrepareResult where
  ret : Int
  displays : Displays
deriving DecidableEq, Repr

/-- The function `hwc_prepare`. The loop visits every index of `hwLayers` once
and writes only the element it visits, which is `List.map`. -/
def hwc_prepare (numDisplays : Nat) (displays : Displays) : Option PrepareResult :=
  match displays with
  | none => some { ret := 0, displays := displays }
  | some ds =>
    if numDisplays = 0 then some { ret := 0, displays := displays }
    else
      match ds with
      | [] => none
      | none :: _ => some { ret := 0, displays := displays }
      | some contents :: rest =>
        if contents.flags &&& HWC_GEOMETRY_CHANGED ≠ 0 then
          some { ret := 0
                 displays := some (some { contents with
                   hwLayers := contents.hwLayers.map prepare_layer } :: rest) }
        else some { ret := 0, displays := displays }

/-! ## hwc_set (lines 81-134) -/

/-- The state of the layer scan of `hwc_set`: the `close` calls made so far, in
order, and the local `fb_target_layer`, which has no value (`none`) until the
scan assigns it. -/
structure ScanState where
  closes : List Int
  fb_target_layer : Option hwc_layer_1_t
deriving DecidableEq, Repr

/-- One iteration of the scan (lines 93-110). -/
def scan_step (s : ScanState) (fb_layer : hwc_layer_1_t) : ScanState :=
  if fb_layer.compositionType ≠ HWC_FRAMEBUFFER_TARGET then
    if fb_layer.acquireFenceFd ≠ -1 then
      { s with closes := s.closes ++ [fb_layer.acquireFenceFd] }
    else s
  else if fb_layer.handle = none then
    if fb_layer.acquireFenceFd ≠ -1 then
      { s with closes := s.closes ++ [fb_layer.acquireFenceFd] }
    else s
  else { s with fb_target_layer := some fb_layer }

/-- The scan of `hwc_set` over all the layers (lines 92-111). -/
def hwc_set_scan (layers : List hwc_layer_1_t) : ScanState :=
  layers.foldl scan_step { closes := [], fb_target_layer := none }

/-- What `hwc_set` returns and does: the return value, the session as it
leaves it, the `close` calls and the `send_message` calls, in order. -/
structure SetResult where
  ret : Int
  pdev : playdroid_hwc_composer_device_1
  closes : List Int
  sends : List SendCall
deriving DecidableEq, Repr

/-- The function `hwc_set`. The parameter `send_message` gives the value the
library call returns; the code discards it. The result is `none` where the C
code reads `displays[0]` past the array, `contents` through a null pointer,
`fb_target_layer` before any assignment, or a handle through the layout of
another allocator. -/
def hwc_set (send_message : SendCall → Int) (pdev : playdroid_hwc_composer_device_1)
    (numDisplays : Nat) (displays : Displays) : Option SetResult :=
  match displays with
  | none => some { ret := 0, pdev := pdev, closes := [], sends := [] }
  | some ds =>
    if numDisplays = 0 then some { ret := 0, pdev := pdev, closes := [], sends := [] }
    else
      match ds with
      | [] => none
      | none :: _ => none
      | some contents :: _ =>
        let scan := hwc_set_scan contents.hwLayers
        if pdev.gtype = GRALLOC_GBM then
          match scan.fb_target_layer with
          | none => none
          | some fb_target_layer =>
            match fb_target_layer.handle with
            | some (native_handle.gbm drm_handle) =>
              let message : MessageData :=
                { pdev.message with
                  type := MessageKind.MSG_HAVE_BUFFER
                  format := drm_handle.format
                  modifiers := drm_handle.modifier
                  stride := drm_handle.stride
                  offset := 0 }
              let call : SendCall :=
                { sock := pdev.sock, fd := drm_handle.prime_fd
                  type := MessageType.MSG_TYPE_FD, message := message }
              let _ := send_message call
              some { ret := 0, pdev := { pdev with message := message }
                     closes := scan.closes, sends := [call] }
            | _ => none
        else if pdev.gtype = GRALLOC_CROS then
          match scan.fb_target_layer with
          | none => none
          | some fb_target_layer =>
            match fb_target_layer.handle with
            | some (native_handle.cros cros_handle) =>
              let message : MessageData :=
                { pdev.message with
                  type := MessageKind.MSG_HAVE_BUFFER
                  format := cros_handle.format
                  modifiers := cros_handle.format_modifier
                  stride := cros_handle.strides.p0
                  offset := cros_handle.offsets.p0 }
              let call : SendCall :=
                { sock := pdev.sock, fd := cros_handle.fds.p0
                  type := MessageType.MSG_TYPE_FD, message := message }
              let _ := send_message call
              some { ret := 0, pdev := { pdev with message := message }
                     closes := scan.closes, sends := [call] }
            | _ => none
        else some { ret := 0, pdev := pdev, closes := scan.closes, sends := [] }

/-! ## hwc_query (lines 136-150) -/

/-- The function `hwc_query`: the return value and what is stored in
`value[0]`, if anything. -/
def hwc_query (pdev : playdroid_hwc_composer_device_1) (what : Int) : Int × Option Int :=
  if what = HWC_VSYNC_PERIOD then (0, some pdev.vsync_period_ns)
  else (-EINVAL, none)

/-! ## hwc_event_control (lines 152-168) -/

/-- The function `hwc_event_control`: the return value and the session as it
leaves it. `enabled & ~1` is the bitwise operation on `int`; storing an `int`
in the `bool` field gives `enabled != 0`. -/
def hwc_event_control (pdev : playdroid_hwc_composer_device_1) (dpy : Int) (event : Int)
    (enabled : Int) : Int × playdroid_hwc_composer_device_1 :=
  let _ := dpy
  if Int.land enabled (Int.not 1) = 0 then
    if event = HWC_EVENT_VSYNC then
      (0, { pdev with vsync_callback_enabled := decide (enabled ≠ 0) })
    else (-EINVAL, pdev)
  else (-EINVAL, pdev)

/-! ## hwc_blank, hwc_dump and hwc_get_display_configs (lines 170-195) -/

/-- The function `hwc_blank`: the return value and the session as it leaves
it. -/
def hwc_blank (pdev : playdroid_hwc_composer_device_1) (disp : Int) (blank : Int) :
    Int × playdroid_hwc_composer_device_1 :=
  let _ := disp
  let _ := blank
  (0, pdev)

/-- The function `hwc_dump`: the session and the buffer as it leaves them. -/
def hwc_dump (pdev : playdroid_hwc_composer_device_1) (buff : List Nat) :
    playdroid_hwc_composer_device_1 × List Nat :=
  (pdev, buff)

/-- The function `hwc_get_display_configs`, given the value of `*numConfigs` on
entry: the return value, what is stored in `configs[0]`, if anything, and the
value of `*numConfigs` on return. -/
def hwc_get_display_configs (disp : Int) (numConfigs : Nat) : Int × Option Nat × Nat :=
  if numConfigs = 0 then (0, none, numConfigs)
  else if disp = HWC_DISPLAY_PRIMARY then (0, some 0, 1)
  else (-EINVAL, none, numConfigs)

/-! ## hwc_attribute and hwc_get_display_attributes (lines 198-242) -/

/-- The function `hwc_attribute`. The parameter `lcd_density` is what the code
reads from the property `ro.sf.lcd_density`: `some d` when `property_get`
returns a positive length and `atoi` reads `d`, `none` otherwise. -/
def hwc_attribute (pdev : playdroid_hwc_composer_device_1) (lcd_density : Option Int)
    (attr : Nat) : Int :=
  let density : Int :=
    match lcd_density with
    | some d => d
    | none => 180
  if attr = HWC_DISPLAY_VSYNC_PERIOD then pdev.vsync_period_ns
  else if attr = HWC_DISPLAY_WIDTH then pdev.width
  else if attr = HWC_DISPLAY_HEIGHT then pdev.height
  else if attr = HWC_DISPLAY_DPI_X ∨ attr = HWC_DISPLAY_DPI_Y then
    int_mul density 1000
  else if attr = HWC_DISPLAY_COLOR_TRANSFORM then HAL_COLOR_TRANSFORM_IDENTITY
  else -EINVAL

/-- The loop of `hwc_get_display_attributes` from index `i` on, where
`attributes` is the array from index `i` and `values` what has been written to
`values[0..i)`. The array has no element left (`[]`) when the loop runs past
its end without meeting the terminator. -/
def display_attributes_loop (pdev : playdroid_hwc_composer_device_1)
    (lcd_density : Option Int) (disp : Int) :
    List Nat → List Int → Option (Int × List Int)
  | [], _ => none
  | a :: rest, values =>
    if a = HWC_DISPLAY_NO_ATTRIBUTE then some (0, values)
    else if disp = HWC_DISPLAY_PRIMARY then
      let v := hwc_attribute pdev lcd_density a
      if v = -EINVAL then some (-EINVAL, values ++ [v])
      else display_attributes_loop pdev lcd_density disp rest (values ++ [v])
    else some (-EINVAL, values)

/-- The function `hwc_get_display_attributes`: the return value and the values
written to `values[0]`, `values[1]`, ... in order. -/
def hwc_get_display_attributes (pdev : playdroid_hwc_composer_device_1)
    (lcd_density : Option Int) (disp : Int) (config : Nat) (attributes : List Nat) :
    Option (Int × List Int) :=
  let _ := config
  display_attributes_loop pdev lcd_density disp attributes []

/-! ## get_gralloc_type and hwc_open (lines 256-349) -/

/-- The function `get_gralloc_type`. The helper `str_starts_with` is not
defined in the sources and is a parameter. -/
def get_gralloc_type (str_starts_with : String → String → Int) (gralloc : String) : Int :=
  if gralloc = "default" then GRALLOC_DEFAULT
  else if gralloc = "gbm" then GRALLOC_GBM
  else if str_starts_with gralloc "minigbm_" = 0 then GRALLOC_CROS
  else GRALLOC_ANDROID

/-- Everything `hwc_open` obtains from outside: the property
`ro.hardware.gralloc` (the length `property_get` returns and the value it
stores), the descriptor `connect_socket` returns, the values the two
`send_message` calls return, and what `recv_message` returns and leaves in
`type` and in `pdev->message`. -/
structure OpenEnv where
  str_starts_with : String → String → Int
  gralloc_len : Int
  gralloc : String
  connect_socket : Int
  send_hello : Int
  send_ask : Int
  recv_ret : Int
  recv_type : MessageType
  recv_message : MessageData

/-- What `hwc_open` returns and does: the return value, the session stored in
`*device` (`none` when `*device` is not written) and the `send_message` calls. -/
structure OpenResult where
  ret : Int
  device : Option playdroid_hwc_composer_device_1
  sends : List SendCall
deriving DecidableEq, Repr

/-- The message `hwc_open` sends: the zero-initialised `pdev->message` with the
given kind. The kind field is the only one the two calls set. -/
def handshake_message (kind : MessageKind) : MessageData :=
  { type := kind, format := 0, modifiers := 0, stride := 0, offset := 0
    width := 0, height := 0, refresh_rate := 0 }

/-- The function `hwc_open`. `new` does not return null in C++, so the
`-ENOMEM` branch is never taken. -/
def hwc_open (env : OpenEnv) (name : String) : OpenResult :=
  if name ≠ HWC_HARDWARE_COMPOSER then { ret := -EINVAL, device := none, sends := [] }
  else
    let vsync_period_ns := int_div (int_mul (int_mul 1000 1000) 1000) 60
    let gtype := if env.gralloc_len > 0
      then get_gralloc_type env.str_starts_with env.gralloc else 0
    let sock := env.connect_socket
    let hello : SendCall :=
      { sock := sock, fd := -1, type := MessageType.MSG_TYPE_DATA
        message := handshake_message MessageKind.MSG_HELLO }
    let ask : SendCall :=
      { sock := sock, fd := -1, type := MessageType.MSG_TYPE_DATA_NEEDS_REPLY
        message := handshake_message MessageKind.MSG_ASK_FOR_RESOLUTION }
    let ret := env.recv_ret
    let type := env.recv_type
    let message := env.recv_message
    if type ≠ MessageType.MSG_TYPE_DATA_REPLY ∨
        message.type ≠ MessageKind.MSG_HAVE_RESOLUTION then
      { ret := -EINVAL, device := none, sends := [hello, ask] }
    else if ret < 0 then { ret := ret, device := none, sends := [hello, ask] }
    else
      let width := toInt32 message.width
      let height := toInt32 message.height
      let refresh := toInt32 message.refresh_rate
      if width ≤ 0 ∨ height ≤ 0 ∨ refresh ≤ 0 then
        { ret := -EINVAL, device := none, sends := [hello, ask] }
      else
        let vsync_period_ns :=
          if refresh > 1000 ∧ refresh < 1000000 then
            int_div (int_mul (int_mul 1000 1000) 1000) (int_div refresh 1000)
          else vsync_period_ns
        { ret := ret
          device := some
            { vsync_period_ns := vsync_period_ns, gtype := gtype, sock := sock
              width := width, height := height, refresh := refresh
              message := message, vsync_callback_enabled := true }
          sends := [hello, ask] }

/-! ## The per-call operations of the dispatch table (lines 295-303) -/

/-- A call the host makes through the dispatch table that `hwc_open` fills in,
with the arguments of the call. -/
inductive HostCall where
  | prepare (numDisplays : Nat) (displays : Displays)
  | set (numDisplays : Nat) (displays : Displays)
  | query (what : Int)
  | eventControl (dpy : Int) (event : Int) (enabled : Int)
  | blank (disp : Int) (blank : Int)
  | dump (buff : List Nat)
  | getDisplayConfigs (disp : Int) (numConfigs : Nat)
  | getDisplayAttributes (disp : Int) (config : Nat) (attributes : List Nat)

/-- The session as a call leaves it; `none` where the call is one of the
undefined reads of `hwc_prepare`, `hwc_set` or `hwc_get_display_attributes`.
The bodies of `hwc_prepare`, `hwc_query`, `hwc_get_display_configs` and
`hwc_get_display_attributes` contain no assignment to a field of the session,
so on their defined calls the session is the one they were given. -/
def session_after (send_message : SendCall → Int) (lcd_density : Option Int)
    (pdev : playdroid_hwc_composer_device_1) :
    HostCall → Option playdroid_hwc_composer_device_1
  | HostCall.prepare numDisplays displays =>
    (hwc_prepare numDisplays displays).map (fun _ => pdev)
  | HostCall.set numDisplays displays =>
    (hwc_set send_message pdev numDisplays displays).map (fun r => r.pdev)
  | HostCall.query _ => some pdev
  | HostCall.eventControl dpy event enabled =>
    some (hwc_event_control pdev dpy event enabled).2
  | HostCall.blank disp blank => some (hwc_blank pdev disp blank).2
  | HostCall.dump buff => some (hwc_dump pdev buff).1
  | HostCall.getDisplayConfigs _ _ => some pdev
  | HostCall.getDisplayAttributes disp config attributes =>
    (hwc_get_display_attributes pdev lcd_density disp config attributes).map (fun _ => pdev)

/-! ## Reference definitions and fixtures -/

/-- The vsync period as the specification defines it (section 8): for a refresh
value `r` in millihertz strictly between 1000 and 1000000 the period is
`1e9 * 1000 / r` nanoseconds, exactly; outside that range it is the 60 Hz
default, which the specification gives as 16,666,667 ns. -/
def reference_vsync_period (r : Int) : ℚ :=
  if 1000 < r ∧ r < 1000000 then 1000000000 * 1000 / (r : ℚ) else 16666667

/-- A remote server that answers the resolution request with a well-tagged
reply carrying `w`, `h` and `r`, on a system whose allocator is `gbm`. -/
def fake_server (w h r : Nat) : OpenEnv :=
  { str_starts_with := fun _ _ => 1, gralloc_len := 3, gralloc := "gbm"
    connect_socket := 7, send_hello := 0, send_ask := 0, recv_ret := 0
    recv_type := MessageType.MSG_TYPE_DATA_REPLY
    recv_message :=
      { type := MessageKind.MSG_HAVE_RESOLUTION, format := 0, modifiers := 0
        stride := 0, offset := 0, width := w, height := h, refresh_rate := r } }

/-- The session `hwc_open` builds against `fake_server w h r` when it derives
the period `period`. -/
def fake_session (w h r : Nat) (period : Int) : playdroid_hwc_composer_device_1 :=
  { vsync_period_ns := period, gtype := GRALLOC_GBM, sock := 7
    width := w, height := h, refresh := r
    message := (fake_server w h r).recv_message, vsync_callback_enabled := true }

/-- A layer with the given composition type, flags, handle and acquire fence;
the fields the code never reads are zero. -/
def sample_layer (compositionType : Int) (flags : Nat) (handle : Option native_handle)
    (acquireFenceFd : Int) : hwc_layer_1_t :=
  { compositionType := compositionType, hints := 0, flags := flags, handle := handle
    transform := 0, blending := 0, acquireFenceFd := acquireFenceFd
    releaseFenceFd := -1, planeAlpha := 255 }

/-- A frame set of one display whose contents are the given layers. -/
def sample_frame (flags : Nat) (layers : List hwc_layer_1_t) : Displays :=
  some [some { retireFenceFd := -1, flags := flags, hwLayers := layers }]

/-- A single-fd buffer: fd 9, format 875713112, stride 7680, modifier 72057594037927937. -/
def sample_gbm_handle : gralloc_handle_t :=
  { prime_fd := 9, format := 875713112, stride := 7680, modifier := 72057594037927937 }

/-- A multi-plane buffer whose first plane has fd 11, stride 7680 and offset 4096. -/
def sample_cros_handle : cros_gralloc_handle :=
  { fds := { p0 := 11, p1 := -1, p2 := -1, p3 := -1 }
    strides := { p0 := 7680, p1 := 0, p2 := 0, p3 := 0 }
    offsets := { p0 := 4096, p1 := 0, p2 := 0, p3 := 0 }
    format := 875713112, format_modifier := 72057594037927938 }

/-! # Properties -/

/-! ## Arithmetic of `int` -/

theorem toInt32_of_range (x : Int) (h1 : -2147483648 ≤ x) (h2 : x < 2147483648) :
    toInt32 x = x := by
  unfold toInt32
  omega

theorem toInt32_nat_pos (n : Nat) (hn : n < 4294967296) (h : 0 < toInt32 n) :
    toInt32 n = n := by
  unfold toInt32 at *
  omega

theorem toInt32_bounds (x : Int) : -2147483648 ≤ toInt32 x ∧ toInt32 x < 2147483648 := by
  unfold toInt32
  omega

theorem default_period_eq : int_div (int_mul (int_mul 1000 1000) 1000) 60 = 16666666 := by
  decide

theorem billion_eq : int_mul (int_mul 1000 1000) 1000 = 1000000000 := by
  decide

/-- Inside the window the two `int` divisions of line 344 neither divide by
zero nor leave the range of `int`, and give the integer quotients. -/
theorem window_period_eq (r : Int) (h1 : 1000 < r) (h2 : r < 1000000) :
    int_div (int_mul (int_mul 1000 1000) 1000) (int_div r 1000)
      = 1000000000 / (r / 1000) ∧ 1 ≤ r / 1000 ∧ r / 1000 ≤ 999 := by
  have hq1 : 1 ≤ r / 1000 := by omega
  have hq2 : r / 1000 ≤ 999 := by omega
  have e1 : int_div r 1000 = r / 1000 := by
    unfold int_div
    rw [Int.tdiv_eq_ediv (by omega) (by norm_num)]
    exact toInt32_of_range _ (by omega) (by omega)
  rw [billion_eq, e1]
  refine ⟨?_, hq1, hq2⟩
  unfold int_div
  rw [Int.tdiv_eq_ediv (by norm_num) (by omega)]
  have hpos : 0 ≤ 1000000000 / (r / 1000) := Int.ediv_nonneg (by norm_num) (by omega)
  have hle : 1000000000 / (r / 1000) ≤ 1000000000 :=
    Int.ediv_le_self _ (by norm_num)
  exact toInt32_of_range _ (by omega) (by omega)

/-! ## The handshake of `hwc_open` -/

/-- A session is stored in `*device` only on the accepting path of `hwc_open`,
and there its fields are the reply's values converted to `int` and the period
of lines 305 and 343-344. -/
theorem hwc_open_device_some (env : OpenEnv) (name : String)
    (d : playdroid_hwc_composer_device_1) (h : (hwc_open env name).device = some d) :
    name = HWC_HARDWARE_COMPOSER ∧ env.recv_type = MessageType.MSG_TYPE_DATA_REPLY ∧
    env.recv_message.type = MessageKind.MSG_HAVE_RESOLUTION ∧ 0 ≤ env.recv_ret ∧
    0 < toInt32 env.recv_message.width ∧ 0 < toInt32 env.recv_message.height ∧
    0 < toInt32 env.recv_message.refresh_rate ∧
    (hwc_open env name).ret = env.recv_ret ∧
    d.width = toInt32 env.recv_message.width ∧
    d.height = toInt32 env.recv_message.height ∧
    d.refresh = toInt32 env.recv_message.refresh_rate ∧
    d.vsync_period_ns =
      (if d.refresh > 1000 ∧ d.refresh < 1000000 then
        int_div (int_mul (int_mul 1000 1000) 1000) (int_div d.refresh 1000)
      else int_div (int_mul (int_mul 1000 1000) 1000) 60) := by
  unfold hwc_open at h ⊢
  by_cases hn : name ≠ HWC_HARDWARE_COMPOSER
  · rw [if_pos hn] at h; exact absurd h (by simp)
  · rw [if_neg hn] at h ⊢
    dsimp only at h ⊢
    by_cases hk : env.recv_type ≠ MessageType.MSG_TYPE_DATA_REPLY ∨
        env.recv_message.type ≠ MessageKind.MSG_HAVE_RESOLUTION
    · rw [if_pos hk] at h; exact absurd h (by simp)
    · rw [if_neg hk] at h ⊢
      by_cases hr : env.recv_ret < 0
      · rw [if_pos hr] at h; exact absurd h (by simp)
      · rw [if_neg hr] at h ⊢
        by_cases hv : toInt32 env.recv_message.width ≤ 0 ∨
            toInt32 env.recv_message.height ≤ 0 ∨ toInt32 env.recv_message.refresh_rate ≤ 0
        · rw [if_pos hv] at h; exact absurd h (by simp)
        · rw [if_neg hv] at h ⊢
          have hd := Option.some.inj h
          subst hd
          push_neg at hn hk hr hv
          refine ⟨hn, hk.1, hk.2, by omega, hv.1, hv.2.1, hv.2.2, ?_, ?_, ?_, ?_, ?_⟩ <;>
            with_reducible rfl

/-- The period of an exposed session as a function of the refresh value the
session stores. -/
theorem hwc_open_period_formula (env : OpenEnv) (name : String)
    (d : playdroid_hwc_composer_device_1) (h : (hwc_open env name).device = some d) :
    d.vsync_period_ns =
      (if 1000 < d.refresh ∧ d.refresh < 1000000 then 1000000000 / (d.refresh / 1000)
       else 16666666) := by
  have hs := hwc_open_device_some env name d h
  rw [hs.2.2.2.2.2.2.2.2.2.2.2]
  by_cases hw : d.refresh > 1000 ∧ d.refresh < 1000000
  · rw [if_pos hw, if_pos ⟨hw.1, hw.2⟩]
    exact (window_period_eq d.refresh hw.1 hw.2).1
  · rw [if_neg hw, if_neg (fun hc => hw ⟨hc.1, hc.2⟩)]
    exact default_period_eq

/-- C1 (as amended). For every accepted resolution reply whose refresh value
`r` is a 32-bit unsigned number, the session stores `r` and the period
`10^9 / (r / 1000)`, both divisions being integer divisions (the refresh is
first truncated to whole hertz), when `1000 < r < 1000000`, and the default
`16666666` (`10^9 / 60`, truncated) for every other `r`. -/
theorem hwc_open_vsync_period (env : OpenEnv) (name : String)
    (d : playdroid_hwc_composer_device_1) (h : (hwc_open env name).device = some d)
    (hr : env.recv_message.refresh_rate < 4294967296) :
    d.refresh = (env.recv_message.refresh_rate : Int) ∧
    d.vsync_period_ns =
      (if 1000 < (env.recv_message.refresh_rate : Int) ∧
          (env.recv_message.refresh_rate : Int) < 1000000 then
        1000000000 / ((env.recv_message.refresh_rate : Int) / 1000)
       else 16666666) := by
  have hs := hwc_open_device_some env name d h
  have hrf : d.refresh = (env.recv_message.refresh_rate : Int) := by
    rw [hs.2.2.2.2.2.2.2.2.2.2.1]
    exact toInt32_nat_pos _ hr hs.2.2.2.2.2.2.1
  refine ⟨hrf, ?_⟩
  rw [← hrf]
  exact hwc_open_period_formula env name d h

/-- C1, at the two refresh values the claim names: against a server replying
1500 mHz the stored period is 1,000,000,000 ns, and against one replying
500 mHz it is 16,666,666 ns. -/
theorem hwc_open_vsync_period_witness :
    ((hwc_open (fake_server 1920 1080 1500) "composer").device
        = some (fake_session 1920 1080 1500 1000000000) ∧
      (fake_session 1920 1080 1500 1000000000).vsync_period_ns
        = (if 1000 < ((1500 : Nat) : Int) ∧ ((1500 : Nat) : Int) < 1000000 then
            1000000000 / (((1500 : Nat) : Int) / 1000) else 16666666)) ∧
    ((hwc_open (fake_server 1920 1080 500) "composer").device
        = some (fake_session 1920 1080 500 16666666) ∧
      (fake_session 1920 1080 500 16666666).vsync_period_ns
        = (if 1000 < ((500 : Nat) : Int) ∧ ((500 : Nat) : Int) < 1000000 then
            1000000000 / (((500 : Nat) : Int) / 1000) else 16666666)) :=
  ⟨⟨by decide, (hwc_open_vsync_period (fake_server 1920 1080 1500) "composer"
      (fake_session 1920 1080 1500 1000000000) (by decide) (by decide)).2⟩,
   ⟨by decide, (hwc_open_vsync_period (fake_server 1920 1080 500) "composer"
      (fake_session 1920 1080 500 16666666) (by decide) (by decide)).2⟩⟩

/-- C1 as stated fails. Against a server replying 1500 mHz the stored period
is 1,000,000,000 ns, where the reference definition gives `10^12 / 1500`;
against one replying 500 mHz it is 16,666,666 ns, where the reference
definition gives 16,666,667 ns. -/
theorem hwc_open_vsync_period_not_reference :
    (hwc_open (fake_server 1920 1080 1500) "composer").device
        = some (fake_session 1920 1080 1500 1000000000) ∧
    (((fake_session 1920 1080 1500 1000000000).vsync_period_ns : Int) : ℚ)
        ≠ reference_vsync_period 1500 ∧
    (hwc_open (fake_server 1920 1080 500) "composer").device
        = some (fake_session 1920 1080 500 16666666) ∧
    (((fake_session 1920 1080 500 16666666).vsync_period_ns : Int) : ℚ)
        ≠ reference_vsync_period 500 := by
  refine ⟨by decide, ?_, by decide, ?_⟩
  · simp only [fake_session, reference_vsync_period]
    norm_num
  · simp only [fake_session, reference_vsync_period]
    norm_num

theorem neg_einval_neg : -EINVAL < 0 := by decide

/-- Every path of `hwc_open` that does not store a session returns a negative
value, and the session is withheld exactly when the name is wrong, the reply
is mistagged, the receive failed, or a reply value read as `int` is not
positive. -/
theorem hwc_open_device_none (env : OpenEnv) (name : String) :
    ((hwc_open env name).device = none ↔
      (name ≠ HWC_HARDWARE_COMPOSER ∨
        env.recv_type ≠ MessageType.MSG_TYPE_DATA_REPLY ∨
        env.recv_message.type ≠ MessageKind.MSG_HAVE_RESOLUTION ∨
        env.recv_ret < 0 ∨
        toInt32 env.recv_message.width ≤ 0 ∨
        toInt32 env.recv_message.height ≤ 0 ∨
        toInt32 env.recv_message.refresh_rate ≤ 0)) ∧
    ((hwc_open env name).device = none → (hwc_open env name).ret < 0) := by
  unfold hwc_open
  by_cases hn : name ≠ HWC_HARDWARE_COMPOSER
  · rw [if_pos hn]
    exact ⟨⟨fun _ => Or.inl hn, fun _ => rfl⟩, fun _ => neg_einval_neg⟩
  · rw [if_neg hn]
    dsimp only
    by_cases hk : env.recv_type ≠ MessageType.MSG_TYPE_DATA_REPLY ∨
        env.recv_message.type ≠ MessageKind.MSG_HAVE_RESOLUTION
    · rw [if_pos hk]
      refine ⟨⟨fun _ => ?_, fun _ => rfl⟩, fun _ => neg_einval_neg⟩
      rcases hk with hk | hk
      · exact Or.inr (Or.inl hk)
      · exact Or.inr (Or.inr (Or.inl hk))
    · rw [if_neg hk]
      by_cases hr : env.recv_ret < 0
      · rw [if_pos hr]
        exact ⟨⟨fun _ => Or.inr (Or.inr (Or.inr (Or.inl hr))), fun _ => rfl⟩, fun _ => hr⟩
      · rw [if_neg hr]
        by_cases hv : toInt32 env.recv_message.width ≤ 0 ∨
            toInt32 env.recv_message.height ≤ 0 ∨ toInt32 env.recv_message.refresh_rate ≤ 0
        · rw [if_pos hv]
          exact ⟨⟨fun _ => Or.inr (Or.inr (Or.inr (Or.inr hv))), fun _ => rfl⟩,
            fun _ => neg_einval_neg⟩
        · rw [if_neg hv]
          refine ⟨⟨fun hc => absurd hc (by simp), fun hc => ?_⟩,
            fun hc => absurd hc (by simp)⟩
          rcases hc with hc | hc | hc | hc | hc
          · exact absurd hc hn
          · exact absurd (Or.inl hc) hk
          · exact absurd (Or.inr hc) hk
          · exact absurd hc hr
          · exact absurd hc hv

/-- C2 (as amended). After a successful handshake whose reply carries the
32-bit values `w`, `h` and `r`, the session reports exactly `w` for the width
attribute, `h` for the height attribute, and one and the same derived period
through `hwc_query(HWC_VSYNC_PERIOD)` (which returns 0) and through the
attribute `HWC_DISPLAY_VSYNC_PERIOD`; for a reply with refresh 60000 that
period is 16,666,666 ns. -/
theorem session_reports_negotiated (env : OpenEnv) (name : String)
    (d : playdroid_hwc_composer_device_1) (lcd_density : Option Int)
    (h : (hwc_open env name).device = some d)
    (hw : env.recv_message.width < 4294967296)
    (hh : env.recv_message.height < 4294967296)
    (hr : env.recv_message.refresh_rate < 4294967296) :
    hwc_attribute d lcd_density HWC_DISPLAY_WIDTH = (env.recv_message.width : Int) ∧
    hwc_attribute d lcd_density HWC_DISPLAY_HEIGHT = (env.recv_message.height : Int) ∧
    hwc_query d HWC_VSYNC_PERIOD
      = (0, some (hwc_attribute d lcd_density HWC_DISPLAY_VSYNC_PERIOD)) ∧
    hwc_attribute d lcd_density HWC_DISPLAY_VSYNC_PERIOD =
      (if 1000 < (env.recv_message.refresh_rate : Int) ∧
          (env.recv_message.refresh_rate : Int) < 1000000 then
        1000000000 / ((env.recv_message.refresh_rate : Int) / 1000)
       else 16666666) ∧
    (env.recv_message.refresh_rate = 60000 →
      hwc_attribute d lcd_density HWC_DISPLAY_VSYNC_PERIOD = 16666666) := by
  have hs := hwc_open_device_some env name d h
  have hp := hwc_open_period_formula env name d h
  have hrf : d.refresh = (env.recv_message.refresh_rate : Int) := by
    rw [hs.2.2.2.2.2.2.2.2.2.2.1]
    exact toInt32_nat_pos _ hr hs.2.2.2.2.2.2.1
  have hwd : d.width = (env.recv_message.width : Int) := by
    rw [hs.2.2.2.2.2.2.2.2.1]
    exact toInt32_nat_pos _ hw hs.2.2.2.2.1
  have hht : d.height = (env.recv_message.height : Int) := by
    rw [hs.2.2.2.2.2.2.2.2.2.1]
    exact toInt32_nat_pos _ hh hs.2.2.2.2.2.1
  have a1 : hwc_attribute d lcd_density HWC_DISPLAY_WIDTH = d.width := by
    simp [hwc_attribute, HWC_DISPLAY_WIDTH, HWC_DISPLAY_VSYNC_PERIOD]
  have a2 : hwc_attribute d lcd_density HWC_DISPLAY_HEIGHT = d.height := by
    simp [hwc_attribute, HWC_DISPLAY_HEIGHT, HWC_DISPLAY_WIDTH, HWC_DISPLAY_VSYNC_PERIOD]
  have a3 : hwc_attribute d lcd_density HWC_DISPLAY_VSYNC_PERIOD = d.vsync_period_ns := by
    simp [hwc_attribute]
  have a4 : hwc_query d HWC_VSYNC_PERIOD = (0, some d.vsync_period_ns) := by
    simp [hwc_query]
  rw [a1, a2, a3, a4, hwd, hht, hp, hrf]
  refine ⟨rfl, rfl, rfl, rfl, fun h6 => ?_⟩
  rw [h6]
  decide

/-- C2, at the reply (1920, 1080, 60000): width 1920, height 1080, and the
period 16,666,666 ns through both queries. -/
theorem session_reports_negotiated_witness :
    (hwc_open (fake_server 1920 1080 60000) "composer").device
      = some (fake_session 1920 1080 60000 16666666) ∧
    hwc_attribute (fake_session 1920 1080 60000 16666666) none HWC_DISPLAY_WIDTH = 1920 ∧
    hwc_attribute (fake_session 1920 1080 60000 16666666) none HWC_DISPLAY_HEIGHT = 1080 ∧
    hwc_query (fake_session 1920 1080 60000 16666666) HWC_VSYNC_PERIOD
      = (0, some (hwc_attribute (fake_session 1920 1080 60000 16666666) none
          HWC_DISPLAY_VSYNC_PERIOD)) ∧
    hwc_attribute (fake_session 1920 1080 60000 16666666) none HWC_DISPLAY_VSYNC_PERIOD
      = 16666666 :=
  have t := session_reports_negotiated (fake_server 1920 1080 60000) "composer"
    (fake_session 1920 1080 60000 16666666) none (by decide) (by decide) (by decide)
    (by decide)
  ⟨by decide, t.1, t.2.1, t.2.2.1, t.2.2.2.2 rfl⟩

/-- C2 as stated fails at its own example. For the reply (1920, 1080, 60000)
the session reports the period 16,666,666 ns through `hwc_query` and through
the attribute, not 16,666,667 ns. -/
theorem session_60hz_period_not_16666667 :
    (hwc_open (fake_server 1920 1080 60000) "composer").device
      = some (fake_session 1920 1080 60000 16666666) ∧
    hwc_query (fake_session 1920 1080 60000 16666666) HWC_VSYNC_PERIOD
      = (0, some 16666666) ∧
    hwc_attribute (fake_session 1920 1080 60000 16666666) none HWC_DISPLAY_VSYNC_PERIOD
      = 16666666 ∧
    hwc_query (fake_session 1920 1080 60000 16666666) HWC_VSYNC_PERIOD
      ≠ (0, some 16666667) ∧
    hwc_attribute (fake_session 1920 1080 60000 16666666) none HWC_DISPLAY_VSYNC_PERIOD
      ≠ 16666667 := by
  decide

/-- C3. `hwc_open` returns a negative value and does not write `*device`
whenever the reply's envelope tag is not `MSG_TYPE_DATA_REPLY`, or its payload
kind is not `MSG_HAVE_RESOLUTION`, or the receive returns a negative value, or
the reply's width, height or refresh, read as `int`, is not positive; it writes
`*device` only when none of these holds; and when none holds and the module
name is the composer's, it does write `*device` and returns what the receive
returned. -/
theorem hwc_open_fails_on_bad_handshake (env : OpenEnv) (name : String) :
    ((env.recv_type ≠ MessageType.MSG_TYPE_DATA_REPLY ∨
        env.recv_message.type ≠ MessageKind.MSG_HAVE_RESOLUTION ∨
        env.recv_ret < 0 ∨
        toInt32 env.recv_message.width ≤ 0 ∨
        toInt32 env.recv_message.height ≤ 0 ∨
        toInt32 env.recv_message.refresh_rate ≤ 0) →
      (hwc_open env name).ret < 0 ∧ (hwc_open env name).device = none) ∧
    ((hwc_open env name).device ≠ none →
      env.recv_type = MessageType.MSG_TYPE_DATA_REPLY ∧
      env.recv_message.type = MessageKind.MSG_HAVE_RESOLUTION ∧
      0 ≤ env.recv_ret ∧
      0 < toInt32 env.recv_message.width ∧
      0 < toInt32 env.recv_message.height ∧
      0 < toInt32 env.recv_message.refresh_rate) ∧
    (name = HWC_HARDWARE_COMPOSER →
      env.recv_type = MessageType.MSG_TYPE_DATA_REPLY →
      env.recv_message.type = MessageKind.MSG_HAVE_RESOLUTION →
      0 ≤ env.recv_ret →
      0 < toInt32 env.recv_message.width →
      0 < toInt32 env.recv_message.height →
      0 < toInt32 env.recv_message.refresh_rate →
      (hwc_open env name).device ≠ none ∧ (hwc_open env name).ret = env.recv_ret) := by
  have hn := hwc_open_device_none env name
  refine ⟨fun hc => ?_, fun hd => ?_, fun h1 h2 h3 h4 h5 h6 h7 => ?_⟩
  · have hnone : (hwc_open env name).device = none := hn.1.2 (Or.inr hc)
    exact ⟨hn.2 hnone, hnone⟩
  · cases hdev : (hwc_open env name).device with
    | none => exact absurd hdev hd
    | some d =>
      have hs := hwc_open_device_some env name d hdev
      exact ⟨hs.2.1, hs.2.2.1, hs.2.2.2.1, hs.2.2.2.2.1, hs.2.2.2.2.2.1, hs.2.2.2.2.2.2.1⟩
  · have hsome : (hwc_open env name).device ≠ none := by
      intro hc
      rcases hn.1.1 hc with hc | hc | hc | hc | hc | hc | hc
      · exact hc h1
      · exact hc h2
      · exact hc h3
      · omega
      · omega
      · omega
      · omega
    refine ⟨hsome, ?_⟩
    cases hdev : (hwc_open env name).device with
    | none => exact absurd hdev hsome
    | some d => exact (hwc_open_device_some env name d hdev).2.2.2.2.2.2.2.1

/-- C3, at three replies: a reply with the wrong envelope tag and a reply of
width 0 are refused with -22 and no session, and the well-formed reply
(1920, 1080, 60000) yields a session. -/
theorem hwc_open_fails_on_bad_handshake_witness :
    ((hwc_open { fake_server 1920 1080 60000 with
        recv_type := MessageType.MSG_TYPE_DATA } "composer").ret < 0 ∧
      (hwc_open { fake_server 1920 1080 60000 with
        recv_type := MessageType.MSG_TYPE_DATA } "composer").device = none) ∧
    ((hwc_open (fake_server 0 1080 60000) "composer").ret < 0 ∧
      (hwc_open (fake_server 0 1080 60000) "composer").device = none) ∧
    ((hwc_open (fake_server 1920 1080 60000) "composer").device ≠ none ∧
      (hwc_open (fake_server 1920 1080 60000) "composer").ret = 0) :=
  ⟨(hwc_open_fails_on_bad_handshake { fake_server 1920 1080 60000 with
      recv_type := MessageType.MSG_TYPE_DATA } "composer").1 (Or.inl (by decide)),
   (hwc_open_fails_on_bad_handshake (fake_server 0 1080 60000) "composer").1
      (Or.inr (Or.inr (Or.inr (Or.inl (by decide))))),
   (hwc_open_fails_on_bad_handshake (fake_server 1920 1080 60000) "composer").2.2
      (by decide) (by decide) (by decide) (by decide) (by decide) (by decide) (by decide)⟩

/-! ## The layer scan of `hwc_set` -/

/-- The layers whose fence the scan closes: those that are not the framebuffer
target or carry no handle, and whose fence is present. -/
theorem scan_closes_from (layers : List hwc_layer_1_t) (s : ScanState) :
    (layers.foldl scan_step s).closes = s.closes ++
      (layers.filter (fun l => decide ((l.compositionType ≠ HWC_FRAMEBUFFER_TARGET ∨
        l.handle = none) ∧ l.acquireFenceFd ≠ -1))).map (fun l => l.acquireFenceFd) := by
  induction layers generalizing s with
  | nil => simp
  | cons l ls ih =>
    rw [List.foldl_cons, ih]
    unfold scan_step
    by_cases h1 : l.compositionType ≠ HWC_FRAMEBUFFER_TARGET
    · by_cases h2 : l.acquireFenceFd ≠ -1
      · simp [h1, h2, List.filter_cons]
      · simp [h1, h2, List.filter_cons]
    · by_cases h3 : l.handle = none
      · by_cases h2 : l.acquireFenceFd ≠ -1
        · simp [h1, h2, h3, List.filter_cons]
        · simp [h1, h2, h3, List.filter_cons]
      · simp [h1, h3, List.filter_cons]

/-- Layers that are not a framebuffer target with a handle leave
`fb_target_layer` as it is. -/
theorem scan_target_unchanged (layers : List hwc_layer_1_t) (s : ScanState)
    (h : ∀ l ∈ layers, l.compositionType ≠ HWC_FRAMEBUFFER_TARGET ∨ l.handle = none) :
    (layers.foldl scan_step s).fb_target_layer = s.fb_target_layer := by
  induction layers generalizing s with
  | nil => rfl
  | cons l ls ih =>
    rw [List.foldl_cons, ih _ (fun x hx => h x (List.mem_cons_of_mem _ hx))]
    have hl := h l (List.mem_cons_self _ _)
    unfold scan_step
    by_cases h1 : l.compositionType ≠ HWC_FRAMEBUFFER_TARGET
    · by_cases h2 : l.acquireFenceFd ≠ -1 <;> simp [h1, h2]
    · have h3 : l.handle = none := hl.resolve_left h1
      by_cases h2 : l.acquireFenceFd ≠ -1 <;> simp [h1, h2, h3]

/-- The scan leaves in `fb_target_layer` the last framebuffer-target layer
that carries a handle. -/
theorem scan_finds_target (pre post : List hwc_layer_1_t) (layer : hwc_layer_1_t)
    (ht : layer.compositionType = HWC_FRAMEBUFFER_TARGET) (hh : layer.handle ≠ none)
    (hpost : ∀ l ∈ post, l.compositionType ≠ HWC_FRAMEBUFFER_TARGET ∨ l.handle = none) :
    (hwc_set_scan (pre ++ layer :: post)).fb_target_layer = some layer := by
  unfold hwc_set_scan
  rw [List.foldl_append, List.foldl_cons, scan_target_unchanged post _ hpost]
  unfold scan_step
  simp [ht, hh]

/-- A frame without a framebuffer-target layer that carries a handle leaves
`fb_target_layer` unassigned. -/
theorem scan_no_target (layers : List hwc_layer_1_t)
    (h : ∀ l ∈ layers, l.compositionType ≠ HWC_FRAMEBUFFER_TARGET ∨ l.handle = none) :
    (hwc_set_scan layers).fb_target_layer = none := by
  unfold hwc_set_scan
  rw [scan_target_unchanged layers _ h]

/-! ## hwc_set -/

/-- Under GBM and CROS, every frame that has no framebuffer-target layer with a
handle makes `hwc_set` read `fb_target_layer` unassigned. -/
theorem hwc_set_without_target_undefined (send_message : SendCall → Int)
    (pdev : playdroid_hwc_composer_device_1) (numDisplays : Nat)
    (contents : hwc_display_contents_1_t) (rest : List (Option hwc_display_contents_1_t))
    (hn : numDisplays ≠ 0)
    (hg : pdev.gtype = GRALLOC_GBM ∨ pdev.gtype = GRALLOC_CROS)
    (h : ∀ l ∈ contents.hwLayers,
      l.compositionType ≠ HWC_FRAMEBUFFER_TARGET ∨ l.handle = none) :
    hwc_set send_message pdev numDisplays (some (some contents :: rest)) = none := by
  have hs := scan_no_target contents.hwLayers h
  unfold hwc_set
  simp only [hn, if_false]
  rcases hg with hg | hg
  · simp only [hg, if_true, hs]
  · have hne : pdev.gtype ≠ GRALLOC_GBM := by rw [hg]; decide
    simp only [hg, if_true, hs, ite_self]

/-- C4, the code at the failing inputs. Under the GBM backend and under the
CROS backend, a frame whose only layer is a framebuffer target with a null
handle, and a frame with no framebuffer-target layer at all, make `hwc_set`
read `fb_target_layer` before any assignment: the call has no defined result
(it is not "no send, return 0"). -/
theorem hwc_set_null_target_undefined :
    hwc_set (fun _ => 0) (fake_session 1920 1080 60000 16666666) 1
      (sample_frame 0 [sample_layer HWC_FRAMEBUFFER_TARGET 0 none (-1)]) = none ∧
    hwc_set (fun _ => 0)
      { fake_session 1920 1080 60000 16666666 with gtype := GRALLOC_CROS } 1
      (sample_frame 0 [sample_layer HWC_FRAMEBUFFER_TARGET 0 none (-1)]) = none ∧
    hwc_set (fun _ => 0) (fake_session 1920 1080 60000 16666666) 1
      (sample_frame 0 [sample_layer HWC_FRAMEBUFFER 0 none 5]) = none ∧
    hwc_set (fun _ => 0)
      { fake_session 1920 1080 60000 16666666 with gtype := GRALLOC_CROS } 1
      (sample_frame 0 [sample_layer HWC_FRAMEBUFFER 0 none 5]) = none := by
  decide

/-- C5. For a frame whose framebuffer-target layer `layer` carries a handle
(no later layer being a framebuffer target with a handle), `hwc_set` returns 0
and makes exactly one `send_message` call, whatever that call returns. Under
GBM, for a handle `h` of that allocator, the call sends `MSG_HAVE_BUFFER` with
`h.format`, `h.modifier`, `h.stride` and offset 0 and attaches `h.prime_fd`;
under CROS it sends `MSG_HAVE_BUFFER` with `h.format`, `h.format_modifier`,
`h.strides[0]` and `h.offsets[0]` and attaches `h.fds[0]`. The payload fields
are given by the handle alone. -/
theorem hwc_set_hands_off_target (send_message : SendCall → Int)
    (pdev : playdroid_hwc_composer_device_1) (numDisplays : Nat)
    (contents : hwc_display_contents_1_t) (rest : List (Option hwc_display_contents_1_t))
    (pre post : List hwc_layer_1_t) (layer : hwc_layer_1_t)
    (hn : numDisplays ≠ 0)
    (hl : contents.hwLayers = pre ++ layer :: post)
    (ht : layer.compositionType = HWC_FRAMEBUFFER_TARGET)
    (hpost : ∀ l ∈ post, l.compositionType ≠ HWC_FRAMEBUFFER_TARGET ∨ l.handle = none) :
    (∀ h : gralloc_handle_t, pdev.gtype = GRALLOC_GBM →
      layer.handle = some (native_handle.gbm h) →
      ∃ r, hwc_set send_message pdev numDisplays (some (some contents :: rest)) = some r ∧
        r.ret = 0 ∧
        r.sends = [{ sock := pdev.sock, fd := h.prime_fd, type := MessageType.MSG_TYPE_FD
                     message := { pdev.message with
                       type := MessageKind.MSG_HAVE_BUFFER, format := h.format
                       modifiers := h.modifier, stride := h.stride, offset := 0 } }]) ∧
    (∀ h : cros_gralloc_handle, pdev.gtype = GRALLOC_CROS →
      layer.handle = some (native_handle.cros h) →
      ∃ r, hwc_set send_message pdev numDisplays (some (some contents :: rest)) = some r ∧
        r.ret = 0 ∧
        r.sends = [{ sock := pdev.sock, fd := h.fds.p0, type := MessageType.MSG_TYPE_FD
                     message := { pdev.message with
                       type := MessageKind.MSG_HAVE_BUFFER, format := h.format
                       modifiers := h.format_modifier, stride := h.strides.p0
                       offset := h.offsets.p0 } }]) := by
  constructor
  · intro h hg hh
    have hs : (hwc_set_scan contents.hwLayers).fb_target_layer = some layer := by
      rw [hl]
      exact scan_finds_target pre post layer ht (by rw [hh]; simp) hpost
    unfold hwc_set
    simp only [hn, if_false, hg, if_true, hs, hh]
    exact ⟨_, rfl, rfl, rfl⟩
  · intro h hg hh
    have hs : (hwc_set_scan contents.hwLayers).fb_target_layer = some layer := by
      rw [hl]
      exact scan_finds_target pre post layer ht (by rw [hh]; simp) hpost
    have hne : pdev.gtype ≠ GRALLOC_GBM := by rw [hg]; decide
    unfold hwc_set
    simp only [hn, if_false, hne, hg, if_true, hs, hh]
    exact ⟨_, rfl, rfl, rfl⟩

/-- C5, on a frame of an overlay layer followed by the framebuffer target, with
a `send_message` that reports failure. Under GBM with `sample_gbm_handle`: one
`MSG_HAVE_BUFFER` call with the handle's format, modifier and stride, offset
0 and fd 9, and the call returns 0. Under CROS with `sample_cros_handle`: one
`MSG_HAVE_BUFFER` call with the handle's format and format modifier, stride
7680, offset 4096 and fd 11, and the call returns 0. -/
theorem hwc_set_hands_off_target_witness :
    (∃ r, hwc_set (fun _ => -1) (fake_session 1920 1080 60000 16666666) 1
        (some [some { retireFenceFd := -1, flags := 0
                      hwLayers := [sample_layer HWC_OVERLAY 0 none 5,
                        sample_layer HWC_FRAMEBUFFER_TARGET 0
                          (some (native_handle.gbm sample_gbm_handle)) (-1)] }]) = some r ∧
      r.ret = 0 ∧
      r.sends = [{ sock := 7, fd := 9, type := MessageType.MSG_TYPE_FD
                   message := { (fake_server 1920 1080 60000).recv_message with
                     type := MessageKind.MSG_HAVE_BUFFER, format := 875713112
                     modifiers := 72057594037927937, stride := 7680, offset := 0 } }]) ∧
    (∃ r, hwc_set (fun _ => -1)
        { fake_session 1920 1080 60000 16666666 with gtype := GRALLOC_CROS } 1
        (some [some { retireFenceFd := -1, flags := 0
                      hwLayers := [sample_layer HWC_OVERLAY 0 none 5,
                        sample_layer HWC_FRAMEBUFFER_TARGET 0
                          (some (native_handle.cros sample_cros_handle)) (-1)] }]) = some r ∧
      r.ret = 0 ∧
      r.sends = [{ sock := 7, fd := 11, type := MessageType.MSG_TYPE_FD
                   message := { (fake_server 1920 1080 60000).recv_message with
                     type := MessageKind.MSG_HAVE_BUFFER, format := 875713112
                     modifiers := 72057594037927938, stride := 7680, offset := 4096 } }]) :=
  ⟨(hwc_set_hands_off_target (fun _ => -1) (fake_session 1920 1080 60000 16666666) 1
      { retireFenceFd := -1, flags := 0
        hwLayers := [sample_layer HWC_OVERLAY 0 none 5,
          sample_layer HWC_FRAMEBUFFER_TARGET 0
            (some (native_handle.gbm sample_gbm_handle)) (-1)] }
      [] [sample_layer HWC_OVERLAY 0 none 5] []
      (sample_layer HWC_FRAMEBUFFER_TARGET 0
        (some (native_handle.gbm sample_gbm_handle)) (-1))
      (by decide) rfl rfl (by simp)).1 sample_gbm_handle rfl rfl,
   (hwc_set_hands_off_target (fun _ => -1)
      { fake_session 1920 1080 60000 16666666 with gtype := GRALLOC_CROS } 1
      { retireFenceFd := -1, flags := 0
        hwLayers := [sample_layer HWC_OVERLAY 0 none 5,
          sample_layer HWC_FRAMEBUFFER_TARGET 0
            (some (native_handle.cros sample_cros_handle)) (-1)] }
      [] [sample_layer HWC_OVERLAY 0 none 5] []
      (sample_layer HWC_FRAMEBUFFER_TARGET 0
        (some (native_handle.cros sample_cros_handle)) (-1))
      (by decide) rfl rfl (by simp)).2 sample_cros_handle rfl rfl⟩

/-- C6. Under a backend that is neither GBM nor CROS, `hwc_set` returns 0,
makes no `send_message` call and leaves the session, its outgoing message with
it, as it was: for every frame, and for a call without displays. -/
theorem hwc_set_other_backend_sends_nothing (send_message : SendCall → Int)
    (pdev : playdroid_hwc_composer_device_1) (numDisplays : Nat)
    (hg : pdev.gtype ≠ GRALLOC_GBM) (hc : pdev.gtype ≠ GRALLOC_CROS) :
    (∀ (contents : hwc_display_contents_1_t)
        (rest : List (Option hwc_display_contents_1_t)),
      ∃ r, hwc_set send_message pdev numDisplays (some (some contents :: rest)) = some r ∧
        r.ret = 0 ∧ r.sends = [] ∧ r.pdev = pdev ∧ r.pdev.message = pdev.message) ∧
    (∃ r, hwc_set send_message pdev numDisplays none = some r ∧
        r.ret = 0 ∧ r.sends = [] ∧ r.pdev = pdev) ∧
    (∀ displays : Displays,
      ∃ r, hwc_set send_message pdev 0 displays = some r ∧
        r.ret = 0 ∧ r.sends = [] ∧ r.pdev = pdev) := by
  refine ⟨fun contents rest => ?_, ⟨_, rfl, rfl, rfl, rfl⟩, fun displays => ?_⟩
  · unfold hwc_set
    by_cases hn : numDisplays = 0
    · simp only [hn, if_true]
      exact ⟨_, rfl, rfl, rfl, rfl, rfl⟩
    · simp only [hn, if_false, hg, hc]
      exact ⟨_, rfl, rfl, rfl, rfl, rfl⟩
  · unfold hwc_set
    cases displays with
    | none => exact ⟨_, rfl, rfl, rfl, rfl⟩
    | some ds =>
      simp only [if_true]
      exact ⟨_, rfl, rfl, rfl, rfl⟩

/-- C6, under `GRALLOC_DEFAULT` on a frame whose framebuffer target holds a
buffer: no send, return 0, session unchanged. -/
theorem hwc_set_other_backend_sends_nothing_witness :
    ∃ r, hwc_set (fun _ => 0)
        { fake_session 1920 1080 60000 16666666 with gtype := GRALLOC_DEFAULT } 1
        (some [some { retireFenceFd := -1, flags := 0
                      hwLayers := [sample_layer HWC_FRAMEBUFFER_TARGET 0
                        (some (native_handle.foreign 3)) (-1)] }]) = some r ∧
      r.ret = 0 ∧ r.sends = [] ∧
      r.pdev = { fake_session 1920 1080 60000 16666666 with gtype := GRALLOC_DEFAULT } ∧
      r.pdev.message =
        ({ fake_session 1920 1080 60000 16666666 with gtype := GRALLOC_DEFAULT }).message :=
  (hwc_set_other_backend_sends_nothing (fun _ => 0)
    { fake_session 1920 1080 60000 16666666 with gtype := GRALLOC_DEFAULT } 1
    (by decide) (by decide)).1
    { retireFenceFd := -1, flags := 0
      hwLayers := [sample_layer HWC_FRAMEBUFFER_TARGET 0
        (some (native_handle.foreign 3)) (-1)] } []

/-- The `close` calls of a call of `hwc_set` on a frame are those of its layer
scan. -/
theorem hwc_set_closes_eq_scan (send_message : SendCall → Int)
    (pdev : playdroid_hwc_composer_device_1) (numDisplays : Nat)
    (contents : hwc_display_contents_1_t) (rest : List (Option hwc_display_contents_1_t))
    (r : SetResult) (hn : numDisplays ≠ 0)
    (h : hwc_set send_message pdev numDisplays (some (some contents :: rest)) = some r) :
    r.closes = (hwc_set_scan contents.hwLayers).closes := by
  unfold hwc_set at h
  simp only [hn, if_false] at h
  split at h
  · split at h
    · exact absurd h (by simp)
    · split at h
      · have := Option.some.inj h
        subst this
        rfl
      · exact absurd h (by simp)
  · split at h
    · split at h
      · exact absurd h (by simp)
      · split at h
        · have := Option.some.inj h
          subst this
          rfl
        · exact absurd h (by simp)
    · have := Option.some.inj h
      subst this
      rfl

/-- C8. The layer scan of `hwc_set` makes one `close` call for each layer, in
layer order, that is not the framebuffer target or carries no handle and
whose acquire fence is present, and no other: so every layer that is not the
framebuffer target and has a fence gets its fence closed, exactly once each
(the calls for those layers are a subsequence of all the calls, and are all
the calls when every framebuffer-target layer carries a handle), and -1 is
never closed. Every call of `hwc_set` on a frame makes the `close` calls of the
scan of that frame. -/
theorem hwc_set_scan_closes_fences (layers : List hwc_layer_1_t) :
    (hwc_set_scan layers).closes =
      (layers.filter (fun l => decide ((l.compositionType ≠ HWC_FRAMEBUFFER_TARGET ∨
        l.handle = none) ∧ l.acquireFenceFd ≠ -1))).map (fun l => l.acquireFenceFd) ∧
    (∀ l ∈ layers, l.compositionType ≠ HWC_FRAMEBUFFER_TARGET → l.acquireFenceFd ≠ -1 →
      l.acquireFenceFd ∈ (hwc_set_scan layers).closes) ∧
    List.Sublist
      ((layers.filter (fun l => decide (l.compositionType ≠ HWC_FRAMEBUFFER_TARGET ∧
        l.acquireFenceFd ≠ -1))).map (fun l => l.acquireFenceFd))
      (hwc_set_scan layers).closes ∧
    ((∀ l ∈ layers, l.compositionType = HWC_FRAMEBUFFER_TARGET → l.handle ≠ none) →
      (hwc_set_scan layers).closes =
        (layers.filter (fun l => decide (l.compositionType ≠ HWC_FRAMEBUFFER_TARGET ∧
          l.acquireFenceFd ≠ -1))).map (fun l => l.acquireFenceFd)) ∧
    (-1 : Int) ∉ (hwc_set_scan layers).closes ∧
    (∀ (send_message : SendCall → Int) (pdev : playdroid_hwc_composer_device_1)
        (numDisplays : Nat) (contents : hwc_display_contents_1_t)
        (rest : List (Option hwc_display_contents_1_t)) (r : SetResult),
      numDisplays ≠ 0 → contents.hwLayers = layers →
      hwc_set send_message pdev numDisplays (some (some contents :: rest)) = some r →
      r.closes = (hwc_set_scan layers).closes) := by
  have hc : (hwc_set_scan layers).closes =
      (layers.filter (fun l => decide ((l.compositionType ≠ HWC_FRAMEBUFFER_TARGET ∨
        l.handle = none) ∧ l.acquireFenceFd ≠ -1))).map (fun l => l.acquireFenceFd) := by
    unfold hwc_set_scan
    rw [scan_closes_from]
    rfl
  refine ⟨hc, ?_, ?_, ?_, ?_, ?_⟩
  rotate_right
  · intro send_message pdev numDisplays contents rest r hn hl hr
    rw [← hl]
    exact hwc_set_closes_eq_scan send_message pdev numDisplays contents rest r hn hr
  · intro l hl h1 h2
    rw [hc, List.mem_map]
    refine ⟨l, ?_, rfl⟩
    rw [List.mem_filter]
    exact ⟨hl, by simp [h1, h2]⟩
  · rw [hc]
    apply List.Sublist.map
    apply List.monotone_filter_right
    intro l hl
    simp only [decide_eq_true_eq] at hl ⊢
    exact ⟨Or.inl hl.1, hl.2⟩
  · intro hall
    rw [hc]
    congr 1
    apply List.filter_congr
    intro l hl
    by_cases h1 : l.compositionType = HWC_FRAMEBUFFER_TARGET
    · have h3 := hall l hl h1
      simp [h1, h3]
    · simp [h1]
  · rw [hc, List.mem_map]
    rintro ⟨l, hl, he⟩
    rw [List.mem_filter] at hl
    simp only [decide_eq_true_eq] at hl
    exact hl.2.2 he

/-- C8, on a frame of four layers: an overlay with fence 5, an overlay without
fence, a framebuffer layer with fence 6 and the framebuffer target with fence
8 and a buffer. The scan closes 5 and 6, in that order, and nothing else. -/
theorem hwc_set_scan_closes_fences_witness :
    (hwc_set_scan [sample_layer HWC_OVERLAY 0 none 5, sample_layer HWC_OVERLAY 0 none (-1),
      sample_layer HWC_FRAMEBUFFER 0 none 6,
      sample_layer HWC_FRAMEBUFFER_TARGET 0
        (some (native_handle.gbm sample_gbm_handle)) 8]).closes = [5, 6] :=
  ((hwc_set_scan_closes_fences [sample_layer HWC_OVERLAY 0 none 5,
      sample_layer HWC_OVERLAY 0 none (-1), sample_layer HWC_FRAMEBUFFER 0 none 6,
      sample_layer HWC_FRAMEBUFFER_TARGET 0
        (some (native_handle.gbm sample_gbm_handle)) 8]).2.2.2.1
    (by decide)).trans (by decide)

/-! ## hwc_prepare -/

/-- A flag word has the flag of value 1 exactly when its bit 0 is set. -/
theorem and_one_ne_zero_iff (n : Nat) : n &&& 1 ≠ 0 ↔ n.testBit 0 = true := by
  rw [Nat.and_one_is_mod, ← Nat.mod_two_eq_one_iff_testBit_zero]
  omega

/-- The loop body of `hwc_prepare` changes a layer exactly when the layer is an
overlay without the skip flag. -/
theorem prepare_layer_eq (l : hwc_layer_1_t) :
    prepare_layer l =
      (if l.compositionType = HWC_OVERLAY ∧ l.flags.testBit 0 = false then
        { l with compositionType := HWC_FRAMEBUFFER } else l) := by
  unfold prepare_layer
  by_cases ht : l.compositionType = HWC_FRAMEBUFFER_TARGET
  · have hno : l.compositionType ≠ HWC_OVERLAY := by rw [ht]; decide
    rw [if_pos ht, if_neg (fun hc => hno hc.1)]
  · rw [if_neg ht]
    by_cases hs : l.flags &&& HWC_SKIP_LAYER ≠ 0
    · have hb : l.flags.testBit 0 = true := (and_one_ne_zero_iff _).1 hs
      rw [if_pos hs, if_neg (fun hc => by rw [hb] at hc; exact absurd hc.2 (by decide))]
    · have hb : l.flags.testBit 0 = false := by
        cases hbit : l.flags.testBit 0 with
        | false => rfl
        | true => exact absurd ((and_one_ne_zero_iff _).2 hbit) hs
      rw [if_neg hs]
      by_cases ho : l.compositionType = HWC_OVERLAY
      · rw [if_pos ho, if_pos ⟨ho, hb⟩]
      · rw [if_neg ho, if_neg (fun hc => ho hc.1)]

/-- C7. `hwc_prepare` returns 0. When the primary display's contents carry
the geometry-changed flag (bit 0 of `flags`), the layers it leaves are the
layers it was given, in the same number and order, with the composition type
set to `HWC_FRAMEBUFFER` on exactly those that are `HWC_OVERLAY` and do not
carry `HWC_SKIP_LAYER` (bit 0 of the layer's `flags`), every other field and
layer as it was. When the flag is not set, when there are no layers, when
the primary contents are null and when there are no displays, the frame set is
left as it was. -/
theorem hwc_prepare_reassigns_overlays (numDisplays : Nat) :
    hwc_prepare numDisplays none = some { ret := 0, displays := none } ∧
    (∀ displays : Displays,
      hwc_prepare 0 displays = some { ret := 0, displays := displays }) ∧
    (∀ rest : List (Option hwc_display_contents_1_t),
      hwc_prepare numDisplays (some (none :: rest))
        = some { ret := 0, displays := some (none :: rest) }) ∧
    (∀ (contents : hwc_display_contents_1_t)
        (rest : List (Option hwc_display_contents_1_t)),
      (∃ r, hwc_prepare numDisplays (some (some contents :: rest)) = some r ∧ r.ret = 0) ∧
      (numDisplays ≠ 0 → contents.flags.testBit 0 = true →
        hwc_prepare numDisplays (some (some contents :: rest))
          = some { ret := 0
                   displays := some (some
                     { retireFenceFd := contents.retireFenceFd
                       flags := contents.flags
                       hwLayers := contents.hwLayers.map (fun l =>
                         if l.compositionType = HWC_OVERLAY ∧ l.flags.testBit 0 = false then
                           { l with compositionType := HWC_FRAMEBUFFER }
                         else l) } :: rest) }) ∧
      (contents.flags.testBit 0 = false ∨ contents.hwLayers = [] →
        hwc_prepare numDisplays (some (some contents :: rest))
          = some { ret := 0, displays := some (some contents :: rest) })) := by
  have hmap : ∀ ls : List hwc_layer_1_t,
      ls.map prepare_layer = ls.map (fun l =>
        if l.compositionType = HWC_OVERLAY ∧ l.flags.testBit 0 = false then
          { l with compositionType := HWC_FRAMEBUFFER } else l) := by
    intro ls
    apply List.map_congr_left
    intro l _
    exact prepare_layer_eq l
  refine ⟨rfl, fun displays => ?_, fun rest => ?_, fun contents rest => ⟨?_, ?_, ?_⟩⟩
  · cases displays with
    | none => rfl
    | some ds => simp [hwc_prepare]
  · by_cases hn : numDisplays = 0 <;> simp [hwc_prepare, hn]
  · unfold hwc_prepare
    by_cases hn : numDisplays = 0
    · simp only [hn, if_true]; exact ⟨_, rfl, rfl⟩
    · simp only [hn, if_false]
      by_cases hg : contents.flags &&& HWC_GEOMETRY_CHANGED ≠ 0
      · rw [if_pos hg]; exact ⟨_, rfl, rfl⟩
      · rw [if_neg hg]; exact ⟨_, rfl, rfl⟩
  · intro hn hb
    have hg : contents.flags &&& HWC_GEOMETRY_CHANGED ≠ 0 := (and_one_ne_zero_iff _).2 hb
    unfold hwc_prepare
    simp only [hn, if_false]
    rw [if_pos hg, hmap]
  · intro hcase
    unfold hwc_prepare
    by_cases hn : numDisplays = 0
    · simp only [hn, if_true]
    · simp only [hn, if_false]
      by_cases hg : contents.flags &&& HWC_GEOMETRY_CHANGED ≠ 0
      · have hb : contents.flags.testBit 0 = true := (and_one_ne_zero_iff _).1 hg
        rw [if_pos hg]
        rcases hcase with hc | hc
        · rw [hb] at hc; exact absurd hc (by decide)
        · cases contents
          simp only at hc
          subst hc
          rfl
      · rw [if_neg hg]

/-- C7, on a frame with the geometry-changed flag and four layers: an overlay,
an overlay flagged skip, a framebuffer layer and the framebuffer target. Only
the first layer changes, to `HWC_FRAMEBUFFER`. -/
theorem hwc_prepare_reassigns_overlays_witness :
    hwc_prepare 1 (sample_frame 1 [sample_layer HWC_OVERLAY 0 none 5,
        sample_layer HWC_OVERLAY 1 none 6, sample_layer HWC_FRAMEBUFFER 0 none (-1),
        sample_layer HWC_FRAMEBUFFER_TARGET 0 none (-1)])
      = some { ret := 0
               displays := sample_frame 1 [sample_layer HWC_FRAMEBUFFER 0 none 5,
                 sample_layer HWC_OVERLAY 1 none 6, sample_layer HWC_FRAMEBUFFER 0 none (-1),
                 sample_layer HWC_FRAMEBUFFER_TARGET 0 none (-1)] } :=
  (((hwc_prepare_reassigns_overlays 1).2.2.2
    { retireFenceFd := -1, flags := 1
      hwLayers := [sample_layer HWC_OVERLAY 0 none 5,
        sample_layer HWC_OVERLAY 1 none 6, sample_layer HWC_FRAMEBUFFER 0 none (-1),
        sample_layer HWC_FRAMEBUFFER_TARGET 0 none (-1)] } []).2.1
    (by decide) (by decide)).trans (by decide)

/-! ## hwc_get_display_attributes -/

/-- A code outside the six supported ones makes `hwc_attribute` return
`-EINVAL`, for every session. -/
theorem hwc_attribute_unsupported (pdev : playdroid_hwc_composer_device_1)
    (lcd_density : Option Int) (a : Nat) (ha : a = 0 ∨ 6 < a) :
    hwc_attribute pdev lcd_density a = -EINVAL := by
  unfold hwc_attribute
  have h1 : a ≠ HWC_DISPLAY_VSYNC_PERIOD := by unfold HWC_DISPLAY_VSYNC_PERIOD; omega
  have h2 : a ≠ HWC_DISPLAY_WIDTH := by unfold HWC_DISPLAY_WIDTH; omega
  have h3 : a ≠ HWC_DISPLAY_HEIGHT := by unfold HWC_DISPLAY_HEIGHT; omega
  have h4 : ¬ (a = HWC_DISPLAY_DPI_X ∨ a = HWC_DISPLAY_DPI_Y) := by
    unfold HWC_DISPLAY_DPI_X HWC_DISPLAY_DPI_Y; omega
  have h5 : a ≠ HWC_DISPLAY_COLOR_TRANSFORM := by unfold HWC_DISPLAY_COLOR_TRANSFORM; omega
  simp only [h1, h2, h3, h4, h5, if_false]

/-- The `int` product of a density and 1000 is never -22. -/
theorem dpi_ne_neg_einval (density : Int) : int_mul density 1000 ≠ -EINVAL := by
  unfold int_mul toInt32 EINVAL
  omega

/-- The period of an exposed session is positive. -/
theorem hwc_open_period_pos (env : OpenEnv) (name : String)
    (d : playdroid_hwc_composer_device_1) (h : (hwc_open env name).device = some d) :
    0 < d.vsync_period_ns := by
  rw [hwc_open_period_formula env name d h]
  by_cases hw : 1000 < d.refresh ∧ d.refresh < 1000000
  · rw [if_pos hw]
    have hq1 : 1 ≤ d.refresh / 1000 := by omega
    have hq2 : d.refresh / 1000 ≤ 999 := by omega
    have hle : (1 : Int) ≤ 1000000000 / (d.refresh / 1000) :=
      Int.le_ediv_of_mul_le (by omega) (by omega)
    omega
  · rw [if_neg hw]
    decide

/-- On a session exposed by `hwc_open`, `hwc_attribute` returns `-EINVAL` for
no supported code. -/
theorem hwc_attribute_supported (env : OpenEnv) (name : String)
    (d : playdroid_hwc_composer_device_1) (h : (hwc_open env name).device = some d)
    (lcd_density : Option Int) (a : Nat) (h1 : 1 ≤ a) (h6 : a ≤ 6) :
    hwc_attribute d lcd_density a ≠ -EINVAL := by
  have hs := hwc_open_device_some env name d h
  have hp := hwc_open_period_pos env name d h
  have hw : 0 < d.width := by rw [hs.2.2.2.2.2.2.2.2.1]; exact hs.2.2.2.2.1
  have hh : 0 < d.height := by rw [hs.2.2.2.2.2.2.2.2.2.1]; exact hs.2.2.2.2.2.1
  have he : -EINVAL = -22 := rfl
  unfold hwc_attribute
  by_cases c1 : a = HWC_DISPLAY_VSYNC_PERIOD
  · rw [if_pos c1, he]; omega
  · rw [if_neg c1]
    by_cases c2 : a = HWC_DISPLAY_WIDTH
    · rw [if_pos c2, he]; omega
    · rw [if_neg c2]
      by_cases c3 : a = HWC_DISPLAY_HEIGHT
      · rw [if_pos c3, he]; omega
      · rw [if_neg c3]
        by_cases c4 : a = HWC_DISPLAY_DPI_X ∨ a = HWC_DISPLAY_DPI_Y
        · rw [if_pos c4]; exact dpi_ne_neg_einval _
        · rw [if_neg c4]
          by_cases c5 : a = HWC_DISPLAY_COLOR_TRANSFORM
          · rw [if_pos c5]; decide
          · exfalso
            unfold HWC_DISPLAY_VSYNC_PERIOD at c1
            unfold HWC_DISPLAY_WIDTH at c2
            unfold HWC_DISPLAY_HEIGHT at c3
            unfold HWC_DISPLAY_DPI_X HWC_DISPLAY_DPI_Y at c4
            unfold HWC_DISPLAY_COLOR_TRANSFORM at c5
            omega

/-- On the primary display the loop runs to the terminator, writing the value
of every attribute before it, when none of those values is `-EINVAL`. -/
theorem attributes_loop_primary_ok (pdev : playdroid_hwc_composer_device_1)
    (lcd_density : Option Int) (pre post : List Nat) (values : List Int)
    (hpre : ∀ a ∈ pre, a ≠ HWC_DISPLAY_NO_ATTRIBUTE ∧
      hwc_attribute pdev lcd_density a ≠ -EINVAL) :
    display_attributes_loop pdev lcd_density HWC_DISPLAY_PRIMARY
        (pre ++ HWC_DISPLAY_NO_ATTRIBUTE :: post) values
      = some (0, values ++ pre.map (hwc_attribute pdev lcd_density)) := by
  induction pre generalizing values with
  | nil => simp [display_attributes_loop]
  | cons a as ih =>
    have ha := hpre a (List.mem_cons_self _ _)
    rw [List.cons_append, display_attributes_loop, if_neg ha.1, if_pos rfl]
    simp only [ha.2, if_false]
    rw [ih _ (fun x hx => hpre x (List.mem_cons_of_mem _ hx))]
    simp

/-- On the primary display the loop returns `-EINVAL` when the value of some
attribute before the terminator is `-EINVAL`. -/
theorem attributes_loop_primary_bad (pdev : playdroid_hwc_composer_device_1)
    (lcd_density : Option Int) (pre post : List Nat) (values : List Int)
    (hpre : ∀ a ∈ pre, a ≠ HWC_DISPLAY_NO_ATTRIBUTE)
    (hbad : ∃ a ∈ pre, hwc_attribute pdev lcd_density a = -EINVAL) :
    ∃ written, display_attributes_loop pdev lcd_density HWC_DISPLAY_PRIMARY
        (pre ++ HWC_DISPLAY_NO_ATTRIBUTE :: post) values = some (-EINVAL, written) := by
  induction pre generalizing values with
  | nil =>
    obtain ⟨a, ha, _⟩ := hbad
    exact absurd ha (List.not_mem_nil a)
  | cons a as ih =>
    have ha := hpre a (List.mem_cons_self _ _)
    rw [List.cons_append, display_attributes_loop, if_neg ha, if_pos rfl]
    by_cases hv : hwc_attribute pdev lcd_density a = -EINVAL
    · simp only [hv, if_true]
      exact ⟨_, rfl⟩
    · simp only [hv, if_false]
      apply ih _ (fun x hx => hpre x (List.mem_cons_of_mem _ hx))
      obtain ⟨b, hb, hbv⟩ := hbad
      rcases List.mem_cons.1 hb with hb | hb
      · rw [hb] at hbv; exact absurd hbv hv
      · exact ⟨b, hb, hbv⟩

/-- C9 (as amended). For a session exposed by a successful handshake, any
density setting and an attribute array whose codes before the terminator are
`pre`: on the primary display `hwc_get_display_attributes` returns 0 and
writes, for each code of `pre` in order, the value `hwc_attribute` gives it,
when every code of `pre` is supported (1 to 6); it returns `-EINVAL` when
some code of `pre` is not supported; on every other display it returns
`-EINVAL`, writing nothing, when `pre` is not empty; and for an empty list it
returns 0 on every display, primary or not. The values of the supported codes
are the session's period, width and height, the identity marker 0, and
`density * 1000` computed in `int` (which is `density * 1000` when that fits). -/
theorem hwc_get_display_attributes_spec (env : OpenEnv) (name : String)
    (d : playdroid_hwc_composer_device_1) (lcd_density : Option Int) (config : Nat)
    (pre post : List Nat)
    (h : (hwc_open env name).device = some d)
    (hpre : ∀ a ∈ pre, a ≠ HWC_DISPLAY_NO_ATTRIBUTE) :
    ((∀ a ∈ pre, a ≤ 6) →
      hwc_get_display_attributes d lcd_density HWC_DISPLAY_PRIMARY config
          (pre ++ HWC_DISPLAY_NO_ATTRIBUTE :: post)
        = some (0, pre.map (hwc_attribute d lcd_density))) ∧
    ((∃ a ∈ pre, 6 < a) →
      ∃ written, hwc_get_display_attributes d lcd_density HWC_DISPLAY_PRIMARY config
          (pre ++ HWC_DISPLAY_NO_ATTRIBUTE :: post) = some (-EINVAL, written)) ∧
    (∀ disp : Int, disp ≠ HWC_DISPLAY_PRIMARY → pre ≠ [] →
      hwc_get_display_attributes d lcd_density disp config
          (pre ++ HWC_DISPLAY_NO_ATTRIBUTE :: post) = some (-EINVAL, [])) ∧
    (∀ disp : Int,
      hwc_get_display_attributes d lcd_density disp config
          (HWC_DISPLAY_NO_ATTRIBUTE :: post) = some (0, [])) ∧
    (hwc_attribute d lcd_density HWC_DISPLAY_VSYNC_PERIOD = d.vsync_period_ns ∧
      hwc_attribute d lcd_density HWC_DISPLAY_WIDTH = d.width ∧
      hwc_attribute d lcd_density HWC_DISPLAY_HEIGHT = d.height ∧
      hwc_attribute d lcd_density HWC_DISPLAY_COLOR_TRANSFORM = 0 ∧
      hwc_attribute d lcd_density HWC_DISPLAY_DPI_X = toInt32 (lcd_density.getD 180 * 1000) ∧
      hwc_attribute d lcd_density HWC_DISPLAY_DPI_Y = toInt32 (lcd_density.getD 180 * 1000) ∧
      (-2147483 ≤ lcd_density.getD 180 → lcd_density.getD 180 ≤ 2147483 →
        toInt32 (lcd_density.getD 180 * 1000) = lcd_density.getD 180 * 1000)) := by
  refine ⟨fun hall => ?_, fun hbad => ?_, fun disp hd hne => ?_, fun disp => ?_, ?_⟩
  · unfold hwc_get_display_attributes
    rw [attributes_loop_primary_ok d lcd_density pre post []]
    · simp
    · intro a ha
      have h0 := hpre a ha
      refine ⟨h0, hwc_attribute_supported env name d h lcd_density a ?_ (hall a ha)⟩
      unfold HWC_DISPLAY_NO_ATTRIBUTE at h0
      omega
  · unfold hwc_get_display_attributes
    apply attributes_loop_primary_bad d lcd_density pre post [] hpre
    obtain ⟨a, ha, h6⟩ := hbad
    exact ⟨a, ha, hwc_attribute_unsupported d lcd_density a (Or.inr h6)⟩
  · unfold hwc_get_display_attributes
    cases pre with
    | nil => exact absurd rfl hne
    | cons a as =>
      have h0 := hpre a (List.mem_cons_self _ _)
      rw [List.cons_append, display_attributes_loop, if_neg h0, if_neg hd]
  · unfold hwc_get_display_attributes
    rw [display_attributes_loop, if_pos rfl]
  · have hden : (match lcd_density with
        | some x => x
        | none => (180 : Int)) = lcd_density.getD 180 := by
      cases lcd_density <;> rfl
    refine ⟨?_, ?_, ?_, ?_, ?_, ?_, ?_⟩
    · simp [hwc_attribute]
    · simp [hwc_attribute, HWC_DISPLAY_WIDTH, HWC_DISPLAY_VSYNC_PERIOD]
    · simp [hwc_attribute, HWC_DISPLAY_HEIGHT, HWC_DISPLAY_WIDTH, HWC_DISPLAY_VSYNC_PERIOD]
    · simp [hwc_attribute, HWC_DISPLAY_COLOR_TRANSFORM, HWC_DISPLAY_HEIGHT, HWC_DISPLAY_WIDTH,
        HWC_DISPLAY_VSYNC_PERIOD, HWC_DISPLAY_DPI_X, HWC_DISPLAY_DPI_Y,
        HAL_COLOR_TRANSFORM_IDENTITY]
    · simp [hwc_attribute, HWC_DISPLAY_HEIGHT, HWC_DISPLAY_WIDTH,
        HWC_DISPLAY_VSYNC_PERIOD, HWC_DISPLAY_DPI_X, int_mul, hden]
    · simp [hwc_attribute, HWC_DISPLAY_HEIGHT, HWC_DISPLAY_WIDTH,
        HWC_DISPLAY_VSYNC_PERIOD, HWC_DISPLAY_DPI_Y, HWC_DISPLAY_DPI_X, int_mul, hden]
    · intro hlo hhi
      exact toInt32_of_range _ (by omega) (by omega)

/-- C9, on the session negotiated from (1920, 1080, 60000) with density 320:
the request width, height, period, DPI, colour transform is answered with 0
and the values 1920, 1080, 16666666, 320000, 0. -/
theorem hwc_get_display_attributes_spec_witness :
    hwc_get_display_attributes (fake_session 1920 1080 60000 16666666) (some 320)
        HWC_DISPLAY_PRIMARY 0
        ([HWC_DISPLAY_WIDTH, HWC_DISPLAY_HEIGHT, HWC_DISPLAY_VSYNC_PERIOD, HWC_DISPLAY_DPI_X,
          HWC_DISPLAY_COLOR_TRANSFORM] ++ HWC_DISPLAY_NO_ATTRIBUTE :: [])
      = some (0, [1920, 1080, 16666666, 320000, 0]) :=
  ((hwc_get_display_attributes_spec (fake_server 1920 1080 60000) "composer"
    (fake_session 1920 1080 60000 16666666) (some 320) 0
    [HWC_DISPLAY_WIDTH, HWC_DISPLAY_HEIGHT, HWC_DISPLAY_VSYNC_PERIOD, HWC_DISPLAY_DPI_X,
      HWC_DISPLAY_COLOR_TRANSFORM] [] (by decide) (by decide)).1 (by decide)).trans
    (by decide)

/-- C9 as stated fails. On the session negotiated from (1920, 1080, 60000),
a request for display 1, which is not the primary display, with an empty
attribute list returns 0, not `-EINVAL`. -/
theorem hwc_get_display_attributes_empty_nonprimary :
    (hwc_open (fake_server 1920 1080 60000) "composer").device
      = some (fake_session 1920 1080 60000 16666666) ∧
    (1 : Int) ≠ HWC_DISPLAY_PRIMARY ∧
    hwc_get_display_attributes (fake_session 1920 1080 60000 16666666) none 1 0
      [HWC_DISPLAY_NO_ATTRIBUTE] = some (0, []) ∧
    (0 : Int) ≠ -EINVAL := by
  decide

/-! ## hwc_event_control -/

/-- Clearing bit 0 of a natural number. -/
theorem ldiff_one (m : Nat) : Nat.ldiff m 1 = 2 * (m / 2) := by
  apply Nat.eq_of_testBit_eq
  intro k
  rw [Nat.testBit_ldiff]
  cases k with
  | zero =>
    simp only [Nat.testBit_zero]
    have : (2 * (m / 2)) % 2 = 0 := by omega
    simp [this]
  | succ k =>
    simp only [Nat.testBit_succ]
    have h1 : (2 * (m / 2)) / 2 = m / 2 := by omega
    rw [h1]
    simp

/-- The test `!(enabled & ~1)` of line 159 holds exactly for 0 and 1. -/
theorem land_not_one (e : Int) : Int.land e (Int.not 1) = 0 ↔ e = 0 ∨ e = 1 := by
  cases e with
  | ofNat m =>
    show ((Nat.ldiff m 1 : Nat) : Int) = 0 ↔ _
    rw [ldiff_one]
    constructor
    · intro h
      have : 2 * (m / 2) = 0 := by exact_mod_cast h
      have hm : m = 0 ∨ m = 1 := by omega
      rcases hm with hm | hm
      · left; rw [hm]; rfl
      · right; rw [hm]; rfl
    · intro h
      rcases h with h | h
      · have : m = 0 := Int.ofNat.inj h
        subst this; rfl
      · have : m = 1 := Int.ofNat.inj h
        subst this; rfl
  | negSucc m =>
    show Int.negSucc (m ||| 1) = 0 ↔ _
    constructor
    · intro h; exact absurd h (by simp)
    · intro h
      rcases h with h | h
      · exact absurd h (by simp)
      · exact absurd h (by simp)

/-- The function `hwc_event_control` with the bit test of line 159 read as
a test on the value of `enabled`. -/
theorem hwc_event_control_eq (pdev : playdroid_hwc_composer_device_1)
    (dpy event enabled : Int) :
    hwc_event_control pdev dpy event enabled =
      (if enabled = 0 ∨ enabled = 1 then
        (if event = HWC_EVENT_VSYNC then
          (0, { pdev with vsync_callback_enabled := decide (enabled ≠ 0) })
        else (-EINVAL, pdev))
      else (-EINVAL, pdev)) := by
  unfold hwc_event_control
  by_cases hm : Int.land enabled (Int.not 1) = 0
  · rw [if_pos hm, if_pos ((land_not_one enabled).1 hm)]
  · rw [if_neg hm, if_neg (fun hc => hm ((land_not_one enabled).2 hc))]

/-- C10 (as amended). For every display id: `hwc_event_control` returns
`-EINVAL` and leaves the session, the vsync gate with it, unchanged when
`enabled` is neither 0 nor 1, and also when the event kind is not
`HWC_EVENT_VSYNC`, whatever `enabled` is; when `enabled` is 0 or 1 and the
event is `HWC_EVENT_VSYNC` it sets the gate to the requested value, changes
nothing else and returns 0. -/
theorem hwc_event_control_spec (pdev : playdroid_hwc_composer_device_1)
    (dpy event enabled : Int) :
    (enabled ≠ 0 → enabled ≠ 1 →
      hwc_event_control pdev dpy event enabled = (-EINVAL, pdev)) ∧
    (event ≠ HWC_EVENT_VSYNC →
      hwc_event_control pdev dpy event enabled = (-EINVAL, pdev)) ∧
    (event = HWC_EVENT_VSYNC → enabled = 0 →
      hwc_event_control pdev dpy event enabled
        = (0, { pdev with vsync_callback_enabled := false })) ∧
    (event = HWC_EVENT_VSYNC → enabled = 1 →
      hwc_event_control pdev dpy event enabled
        = (0, { pdev with vsync_callback_enabled := true })) := by
  refine ⟨fun h0 h1 => ?_, fun he => ?_, fun he h0 => ?_, fun he h1 => ?_⟩
  · have hm : ¬ Int.land enabled (Int.not 1) = 0 := fun hc =>
      ((land_not_one enabled).1 hc).elim h0 h1
    unfold hwc_event_control
    simp only [hm, if_false]
  · unfold hwc_event_control
    by_cases hm : Int.land enabled (Int.not 1) = 0
    · simp only [hm, if_true, he, if_false]
    · simp only [hm, if_false]
  · have hm : Int.land enabled (Int.not 1) = 0 := (land_not_one enabled).2 (Or.inl h0)
    unfold hwc_event_control
    simp only [hm, if_true, he]
    subst h0
    rfl
  · have hm : Int.land enabled (Int.not 1) = 0 := (land_not_one enabled).2 (Or.inr h1)
    unfold hwc_event_control
    simp only [hm, if_true, he]
    subst h1
    rfl

/-- C10, on a session whose gate is on: a vsync request with `enabled = 0`
turns the gate off and returns 0, and a request with `enabled = 2` returns
-22 and leaves the session as it was. -/
theorem hwc_event_control_spec_witness :
    hwc_event_control (fake_session 1920 1080 60000 16666666) 0 HWC_EVENT_VSYNC 0
      = (0, { fake_session 1920 1080 60000 16666666 with vsync_callback_enabled := false }) ∧
    hwc_event_control (fake_session 1920 1080 60000 16666666) 0 HWC_EVENT_VSYNC 2
      = (-EINVAL, fake_session 1920 1080 60000 16666666) :=
  ⟨(hwc_event_control_spec (fake_session 1920 1080 60000 16666666) 0 HWC_EVENT_VSYNC 0).2.2.1
      rfl rfl,
   (hwc_event_control_spec (fake_session 1920 1080 60000 16666666) 0 HWC_EVENT_VSYNC 2).1
      (by decide) (by decide)⟩

/-- C10 as stated fails. With the gate on, a call for event kind 1 with
`enabled = 0`, a boolean value, returns -22 and leaves the gate on: the gate
is not set to the requested value and the call does not return 0. -/
theorem hwc_event_control_other_event :
    (1 : Int) ≠ HWC_EVENT_VSYNC ∧
    hwc_event_control (fake_session 1920 1080 60000 16666666) 0 1 0
      = (-22, fake_session 1920 1080 60000 16666666) ∧
    (fake_session 1920 1080 60000 16666666).vsync_callback_enabled = true := by
  refine ⟨by decide, ?_, rfl⟩
  rw [hwc_event_control_eq]
  decide

/-! ## hwc_get_display_configs and hwc_query -/

/-- C11. Called with output capacity 0, `hwc_get_display_configs` returns 0,
writes no config and leaves the count at 0, for every display id; called on
the primary display with capacity at least 1 it returns 0, writes the config
id 0 into `configs[0]` and sets the count to exactly 1. -/
theorem hwc_get_display_configs_spec (disp : Int) (numConfigs : Nat) :
    hwc_get_display_configs disp 0 = (0, none, 0) ∧
    (1 ≤ numConfigs →
      hwc_get_display_configs HWC_DISPLAY_PRIMARY numConfigs = (0, some 0, 1)) := by
  refine ⟨rfl, fun h => ?_⟩
  have hn : numConfigs ≠ 0 := by omega
  unfold hwc_get_display_configs
  rw [if_neg hn, if_pos rfl]

/-- C11, with capacity 0 on display 5 and with capacity 4 on the primary
display. -/
theorem hwc_get_display_configs_spec_witness :
    hwc_get_display_configs 5 0 = (0, none, 0) ∧
    hwc_get_display_configs HWC_DISPLAY_PRIMARY 4 = (0, some 0, 1) :=
  ⟨(hwc_get_display_configs_spec 5 4).1, (hwc_get_display_configs_spec 5 4).2 (by decide)⟩

/-- C12. `hwc_query` returns 0 and writes the session's vsync period into
`value[0]` when the query code is `HWC_VSYNC_PERIOD`; for every other query
code it returns `-EINVAL` and writes nothing. -/
theorem hwc_query_spec (pdev : playdroid_hwc_composer_device_1) (what : Int) :
    hwc_query pdev HWC_VSYNC_PERIOD = (0, some pdev.vsync_period_ns) ∧
    (what ≠ HWC_VSYNC_PERIOD → hwc_query pdev what = (-EINVAL, none)) := by
  refine ⟨?_, fun h => ?_⟩
  · unfold hwc_query
    rw [if_pos rfl]
  · unfold hwc_query
    rw [if_neg h]

/-- C12, on the session negotiated from (1920, 1080, 60000): the period query
gives 16666666 and the query code 0 is refused with -22. -/
theorem hwc_query_spec_witness :
    hwc_query (fake_session 1920 1080 60000 16666666) HWC_VSYNC_PERIOD
      = (0, some 16666666) ∧
    hwc_query (fake_session 1920 1080 60000 16666666) 0 = (-22, none) :=
  ⟨(hwc_query_spec (fake_session 1920 1080 60000 16666666) 0).1,
   (hwc_query_spec (fake_session 1920 1080 60000 16666666) 0).2 (by decide)⟩

/-! ## The invariant of an exposed session -/

/-- C13. Every session `hwc_open` exposes has width, height and refresh
greater than 0 and a vsync period between 1,001,001 and 1,000,000,000 ns,
which is positive and below 2^31. The derivation of the period never leaves
the range of `int` and never divides by zero, for every reply: the products
and the quotient of line 305 are the exact ones, and whenever the refresh
value read from the reply passes the guard of line 343, the divisor
`refresh / 1000` of line 344 is not zero and both quotients are the exact
ones. -/
theorem hwc_open_session_invariant (env : OpenEnv) (name : String) :
    (∀ d : playdroid_hwc_composer_device_1, (hwc_open env name).device = some d →
      0 < d.width ∧ 0 < d.height ∧ 0 < d.refresh ∧
      1001001 ≤ d.vsync_period_ns ∧ d.vsync_period_ns ≤ 1000000000 ∧
      0 < d.vsync_period_ns ∧ d.vsync_period_ns < 2 ^ 31) ∧
    (int_mul 1000 1000 = 1000 * 1000 ∧
      int_mul (int_mul 1000 1000) 1000 = 1000 * 1000 * 1000 ∧
      int_div (int_mul (int_mul 1000 1000) 1000) 60 = Int.tdiv (1000 * 1000 * 1000) 60) ∧
    (toInt32 env.recv_message.refresh_rate > 1000 →
      toInt32 env.recv_message.refresh_rate < 1000000 →
      Int.tdiv (toInt32 env.recv_message.refresh_rate) 1000 ≠ 0 ∧
      int_div (toInt32 env.recv_message.refresh_rate) 1000
        = Int.tdiv (toInt32 env.recv_message.refresh_rate) 1000 ∧
      int_div (int_mul (int_mul 1000 1000) 1000)
          (int_div (toInt32 env.recv_message.refresh_rate) 1000)
        = Int.tdiv (1000 * 1000 * 1000)
            (Int.tdiv (toInt32 env.recv_message.refresh_rate) 1000)) := by
  refine ⟨fun d h => ?_, ⟨by decide, by decide, by decide⟩, fun h1 h2 => ?_⟩
  · have hs := hwc_open_device_some env name d h
    have hp := hwc_open_period_formula env name d h
    have hw : 0 < d.width := by rw [hs.2.2.2.2.2.2.2.2.1]; exact hs.2.2.2.2.1
    have hh : 0 < d.height := by rw [hs.2.2.2.2.2.2.2.2.2.1]; exact hs.2.2.2.2.2.1
    have hr : 0 < d.refresh := by rw [hs.2.2.2.2.2.2.2.2.2.2.1]; exact hs.2.2.2.2.2.2.1
    have hb : 1001001 ≤ d.vsync_period_ns ∧ d.vsync_period_ns ≤ 1000000000 := by
      rw [hp]
      by_cases hwin : 1000 < d.refresh ∧ d.refresh < 1000000
      · rw [if_pos hwin]
        have hq1 : 1 ≤ d.refresh / 1000 := by omega
        have hq2 : d.refresh / 1000 ≤ 999 := by omega
        exact ⟨Int.le_ediv_of_mul_le (by omega) (by omega),
          Int.ediv_le_self _ (by norm_num)⟩
      · rw [if_neg hwin]
        exact ⟨by decide, by decide⟩
    refine ⟨hw, hh, hr, hb.1, hb.2, by omega, ?_⟩
    have : d.vsync_period_ns ≤ 1000000000 := hb.2
    norm_num
    omega
  · have hr0 : 0 ≤ toInt32 env.recv_message.refresh_rate := by omega
    have ht : Int.tdiv (toInt32 env.recv_message.refresh_rate) 1000
        = toInt32 env.recv_message.refresh_rate / 1000 :=
      Int.tdiv_eq_ediv hr0 (by norm_num)
    have hq1 : 1 ≤ toInt32 env.recv_message.refresh_rate / 1000 := by omega
    have hq2 : toInt32 env.recv_message.refresh_rate / 1000 ≤ 999 := by omega
    have e1 : int_div (toInt32 env.recv_message.refresh_rate) 1000
        = toInt32 env.recv_message.refresh_rate / 1000 := by
      unfold int_div
      rw [ht]
      exact toInt32_of_range _ (by omega) (by omega)
    have hw := (window_period_eq (toInt32 env.recv_message.refresh_rate) h1 h2).1
    have hb : (1000 * 1000 * 1000 : Int) = 1000000000 := by norm_num
    refine ⟨by rw [ht]; omega, by rw [e1, ht], ?_⟩
    rw [hw, ht, hb, Int.tdiv_eq_ediv (by norm_num) (by omega)]

/-- C13, on the reply (1920, 1080, 999999), the largest refresh inside the
window: the session has positive width, height and refresh and the period
1,001,001 ns, the least a session can have. -/
theorem hwc_open_session_invariant_witness :
    (hwc_open (fake_server 1920 1080 999999) "composer").device
      = some (fake_session 1920 1080 999999 1001001) ∧
    0 < (fake_session 1920 1080 999999 1001001).width ∧
    0 < (fake_session 1920 1080 999999 1001001).height ∧
    0 < (fake_session 1920 1080 999999 1001001).refresh ∧
    1001001 ≤ (fake_session 1920 1080 999999 1001001).vsync_period_ns ∧
    (fake_session 1920 1080 999999 1001001).vsync_period_ns ≤ 1000000000 ∧
    0 < (fake_session 1920 1080 999999 1001001).vsync_period_ns ∧
    (fake_session 1920 1080 999999 1001001).vsync_period_ns < 2 ^ 31 :=
  ⟨by decide, (hwc_open_session_invariant (fake_server 1920 1080 999999) "composer").1
    (fake_session 1920 1080 999999 1001001) (by decide)⟩

/-! ## What the per-call operations leave unchanged -/

/-- A call of `hwc_set` writes no field of the session but `message`. -/
theorem hwc_set_frame (send_message : SendCall → Int)
    (pdev : playdroid_hwc_composer_device_1) (numDisplays : Nat) (displays : Displays)
    (r : SetResult) (h : hwc_set send_message pdev numDisplays displays = some r) :
    r.pdev.sock = pdev.sock ∧ r.pdev.width = pdev.width ∧ r.pdev.height = pdev.height ∧
    r.pdev.refresh = pdev.refresh ∧ r.pdev.vsync_period_ns = pdev.vsync_period_ns ∧
    r.pdev.gtype = pdev.gtype ∧
    r.pdev.vsync_callback_enabled = pdev.vsync_callback_enabled := by
  unfold hwc_set at h
  split at h
  · have := Option.some.inj h
    subst this
    exact ⟨rfl, rfl, rfl, rfl, rfl, rfl, rfl⟩
  · split at h
    · have := Option.some.inj h
      subst this
      exact ⟨rfl, rfl, rfl, rfl, rfl, rfl, rfl⟩
    · split at h
      · exact absurd h (by simp)
      · exact absurd h (by simp)
      · dsimp only at h
        split at h
        · split at h
          · exact absurd h (by simp)
          · split at h
            · have := Option.some.inj h
              subst this
              exact ⟨rfl, rfl, rfl, rfl, rfl, rfl, rfl⟩
            · exact absurd h (by simp)
        · split at h
          · split at h
            · exact absurd h (by simp)
            · split at h
              · have := Option.some.inj h
                subst this
                exact ⟨rfl, rfl, rfl, rfl, rfl, rfl, rfl⟩
              · exact absurd h (by simp)
          · have := Option.some.inj h
            subst this
            exact ⟨rfl, rfl, rfl, rfl, rfl, rfl, rfl⟩

/-- A call of `hwc_event_control` writes no field of the session but the gate. -/
theorem hwc_event_control_frame (pdev : playdroid_hwc_composer_device_1)
    (dpy event enabled : Int) :
    (hwc_event_control pdev dpy event enabled).2.sock = pdev.sock ∧
    (hwc_event_control pdev dpy event enabled).2.width = pdev.width ∧
    (hwc_event_control pdev dpy event enabled).2.height = pdev.height ∧
    (hwc_event_control pdev dpy event enabled).2.refresh = pdev.refresh ∧
    (hwc_event_control pdev dpy event enabled).2.vsync_period_ns = pdev.vsync_period_ns ∧
    (hwc_event_control pdev dpy event enabled).2.gtype = pdev.gtype ∧
    (hwc_event_control pdev dpy event enabled).2.message = pdev.message := by
  rw [hwc_event_control_eq]
  by_cases h1 : enabled = 0 ∨ enabled = 1
  · rw [if_pos h1]
    by_cases h2 : event = HWC_EVENT_VSYNC
    · rw [if_pos h2]
      exact ⟨rfl, rfl, rfl, rfl, rfl, rfl, rfl⟩
    · rw [if_neg h2]
      exact ⟨rfl, rfl, rfl, rfl, rfl, rfl, rfl⟩
  · rw [if_neg h1]
    exact ⟨rfl, rfl, rfl, rfl, rfl, rfl, rfl⟩

/-- C14. Whatever call the host makes on a session (`hwc_prepare`, `hwc_set`,
`hwc_query`, `hwc_event_control`, `hwc_blank`, `hwc_dump`,
`hwc_get_display_configs`, `hwc_get_display_attributes`), the session the call
leaves has the socket, width, height, refresh, vsync period and backend tag
it had before. `hwc_blank` and `hwc_dump` always complete, `hwc_blank`
returning 0 and `hwc_dump` leaving the buffer as it was, and leave the whole
session as it was; `hwc_query`, `hwc_event_control` and
`hwc_get_display_configs` always complete as well. -/
theorem per_call_operations_keep_negotiated_state (send_message : SendCall → Int)
    (lcd_density : Option Int) (pdev : playdroid_hwc_composer_device_1) :
    (∀ (call : HostCall) (after : playdroid_hwc_composer_device_1),
      session_after send_message lcd_density pdev call = some after →
      after.sock = pdev.sock ∧ after.width = pdev.width ∧ after.height = pdev.height ∧
      after.refresh = pdev.refresh ∧ after.vsync_period_ns = pdev.vsync_period_ns ∧
      after.gtype = pdev.gtype) ∧
    (∀ disp blank : Int,
      hwc_blank pdev disp blank = (0, pdev) ∧
      session_after send_message lcd_density pdev (HostCall.blank disp blank) = some pdev) ∧
    (∀ buff : List Nat,
      hwc_dump pdev buff = (pdev, buff) ∧
      session_after send_message lcd_density pdev (HostCall.dump buff) = some pdev) ∧
    (∀ what : Int,
      session_after send_message lcd_density pdev (HostCall.query what) = some pdev) ∧
    (∀ (disp : Int) (numConfigs : Nat),
      session_after send_message lcd_density pdev
        (HostCall.getDisplayConfigs disp numConfigs) = some pdev) ∧
    (∀ dpy event enabled : Int,
      ∃ after, session_after send_message lcd_density pdev
        (HostCall.eventControl dpy event enabled) = some after) := by
  refine ⟨fun call after h => ?_, fun _ _ => ⟨rfl, rfl⟩, fun _ => ⟨rfl, rfl⟩,
    fun _ => rfl, fun _ _ => rfl, fun _ _ _ => ⟨_, rfl⟩⟩
  cases call with
  | prepare numDisplays displays =>
    simp only [session_after, Option.map_eq_some'] at h
    obtain ⟨_, _, he⟩ := h
    subst he
    exact ⟨rfl, rfl, rfl, rfl, rfl, rfl⟩
  | set numDisplays displays =>
    simp only [session_after, Option.map_eq_some'] at h
    obtain ⟨r, hr, he⟩ := h
    subst he
    have hf := hwc_set_frame send_message pdev numDisplays displays r hr
    exact ⟨hf.1, hf.2.1, hf.2.2.1, hf.2.2.2.1, hf.2.2.2.2.1, hf.2.2.2.2.2.1⟩
  | query what =>
    have he := Option.some.inj h
    subst he
    exact ⟨rfl, rfl, rfl, rfl, rfl, rfl⟩
  | eventControl dpy event enabled =>
    have he := Option.some.inj h
    subst he
    have hf := hwc_event_control_frame pdev dpy event enabled
    exact ⟨hf.1, hf.2.1, hf.2.2.1, hf.2.2.2.1, hf.2.2.2.2.1, hf.2.2.2.2.2.1⟩
  | blank disp blank =>
    have he := Option.some.inj h
    subst he
    exact ⟨rfl, rfl, rfl, rfl, rfl, rfl⟩
  | dump buff =>
    have he := Option.some.inj h
    subst he
    exact ⟨rfl, rfl, rfl, rfl, rfl, rfl⟩
  | getDisplayConfigs disp numConfigs =>
    have he := Option.some.inj h
    subst he
    exact ⟨rfl, rfl, rfl, rfl, rfl, rfl⟩
  | getDisplayAttributes disp config attributes =>
    simp only [session_after, Option.map_eq_some'] at h
    obtain ⟨_, _, he⟩ := h
    subst he
    exact ⟨rfl, rfl, rfl, rfl, rfl, rfl⟩

/-- C14, on a call of `hwc_set` under GBM that hands off `sample_gbm_handle`:
the call rewrites the outgoing message of the session and leaves the socket
7, the geometry (1920, 1080, 60000), the period 16666666 and the backend tag
as they were. -/
theorem per_call_operations_keep_negotiated_state_witness :
    session_after (fun _ => 0) none (fake_session 1920 1080 60000 16666666)
        (HostCall.set 1 (sample_frame 0 [sample_layer HWC_FRAMEBUFFER_TARGET 0
          (some (native_handle.gbm sample_gbm_handle)) (-1)]))
      = some { fake_session 1920 1080 60000 16666666 with
          message := { (fake_server 1920 1080 60000).recv_message with
            type := MessageKind.MSG_HAVE_BUFFER, format := 875713112
            modifiers := 72057594037927937, stride := 7680, offset := 0 } } ∧
    ({ fake_session 1920 1080 60000 16666666 with
        message := { (fake_server 1920 1080 60000).recv_message with
          type := MessageKind.MSG_HAVE_BUFFER, format := 875713112
          modifiers := 72057594037927937, stride := 7680, offset := 0 } }).sock
      = (fake_session 1920 1080 60000 16666666).sock :=
  ⟨by decide,
   ((per_call_operations_keep_negotiated_state (fun _ => 0) none
      (fake_session 1920 1080 60000 16666666)).1
    (HostCall.set 1 (sample_frame 0 [sample_layer HWC_FRAMEBUFFER_TARGET 0
      (some (native_handle.gbm sample_gbm_handle)) (-1)]))
    { fake_session 1920 1080 60000 16666666 with
      message := { (fake_server 1920 1080 60000).recv_message with
        type := MessageKind.MSG_HAVE_BUFFER, format := 875713112
        modifiers := 72057594037927937, stride := 7680, offset := 0 } }
    (by decide)).1⟩

/-! ## Toggling the vsync gate -/

/-- C15. For every session and every boolean value `v` (0 or 1), a second
`hwc_event_control(HWC_EVENT_VSYNC, v)` call after a first one leaves the
session the first call left and returns what the first call returned, which
is 0, and after either call the gate is on exactly when `v` is 1. -/
theorem hwc_event_control_idempotent (pdev : playdroid_hwc_composer_device_1)
    (dpy v : Int) (hv : v = 0 ∨ v = 1) :
    (hwc_event_control (hwc_event_control pdev dpy HWC_EVENT_VSYNC v).2 dpy
        HWC_EVENT_VSYNC v).2 = (hwc_event_control pdev dpy HWC_EVENT_VSYNC v).2 ∧
    (hwc_event_control (hwc_event_control pdev dpy HWC_EVENT_VSYNC v).2 dpy
        HWC_EVENT_VSYNC v).1 = (hwc_event_control pdev dpy HWC_EVENT_VSYNC v).1 ∧
    (hwc_event_control pdev dpy HWC_EVENT_VSYNC v).1 = 0 ∧
    (hwc_event_control pdev dpy HWC_EVENT_VSYNC v).2.vsync_callback_enabled
      = decide (v = 1) ∧
    (hwc_event_control (hwc_event_control pdev dpy HWC_EVENT_VSYNC v).2 dpy
        HWC_EVENT_VSYNC v).2.vsync_callback_enabled = decide (v = 1) := by
  have h1 : ∀ p : playdroid_hwc_composer_device_1,
      hwc_event_control p dpy HWC_EVENT_VSYNC v
        = (0, { p with vsync_callback_enabled := decide (v = 1) }) := by
    intro p
    rw [hwc_event_control_eq, if_pos hv, if_pos rfl]
    rcases hv with hv | hv <;> subst hv <;> rfl
  rw [h1 pdev, h1]
  exact ⟨rfl, rfl, rfl, rfl, rfl⟩

/-- C15, on a session whose gate is on, with `v = 0`: one call and two calls
both leave the gate off and return 0. -/
theorem hwc_event_control_idempotent_witness :
    (hwc_event_control (hwc_event_control (fake_session 1920 1080 60000 16666666) 0
        HWC_EVENT_VSYNC 0).2 0 HWC_EVENT_VSYNC 0).2
      = (hwc_event_control (fake_session 1920 1080 60000 16666666) 0 HWC_EVENT_VSYNC 0).2 ∧
    (hwc_event_control (hwc_event_control (fake_session 1920 1080 60000 16666666) 0
        HWC_EVENT_VSYNC 0).2 0 HWC_EVENT_VSYNC 0).1
      = (hwc_event_control (fake_session 1920 1080 60000 16666666) 0 HWC_EVENT_VSYNC 0).1 ∧
    (hwc_event_control (fake_session 1920 1080 60000 16666666) 0 HWC_EVENT_VSYNC 0).1 = 0 ∧
    (hwc_event_control (fake_session 1920 1080 60000 16666666) 0
        HWC_EVENT_VSYNC 0).2.vsync_callback_enabled = decide ((0 : Int) = 1) ∧
    (hwc_event_control (hwc_event_control (fake_session 1920 1080 60000 16666666) 0
        HWC_EVENT_VSYNC 0).2 0 HWC_EVENT_VSYNC 0).2.vsync_callback_enabled
      = decide ((0 : Int) = 1) :=
  hwc_event_control_idempotent (fake_session 1920 1080 60000 16666666) 0 0 (Or.inl rfl)

/-! ## The order of the checks of `hwc_open` -/

/-- The value `hwc_open` returns, check by check in the order of the code. -/
theorem hwc_open_ret (env : OpenEnv) (name : String) :
    (hwc_open env name).ret =
      (if name ≠ HWC_HARDWARE_COMPOSER then -EINVAL
       else if env.recv_type ≠ MessageType.MSG_TYPE_DATA_REPLY ∨
          env.recv_message.type ≠ MessageKind.MSG_HAVE_RESOLUTION then -EINVAL
       else if env.recv_ret < 0 then env.recv_ret
       else if toInt32 env.recv_message.width ≤ 0 ∨
          toInt32 env.recv_message.height ≤ 0 ∨
          toInt32 env.recv_message.refresh_rate ≤ 0 then -EINVAL
       else env.recv_ret) := by
  unfold hwc_open
  by_cases hn : name ≠ HWC_HARDWARE_COMPOSER
  · rw [if_pos hn, if_pos hn]
  · rw [if_neg hn, if_neg hn]
    dsimp only
    by_cases hk : env.recv_type ≠ MessageType.MSG_TYPE_DATA_REPLY ∨
        env.recv_message.type ≠ MessageKind.MSG_HAVE_RESOLUTION
    · rw [if_pos hk, if_pos hk]
    · rw [if_neg hk, if_neg hk]
      by_cases hr : env.recv_ret < 0
      · rw [if_pos hr, if_pos hr]
      · rw [if_neg hr, if_neg hr]
        by_cases hv : toInt32 env.recv_message.width ≤ 0 ∨
            toInt32 env.recv_message.height ≤ 0 ∨ toInt32 env.recv_message.refresh_rate ≤ 0
        · rw [if_pos hv, if_pos hv]
        · rw [if_neg hv, if_neg hv]

/-- C17. In `hwc_open` the check of the reply's tag and kind comes before the
check of the receive's result: whenever the envelope tag is not
`MSG_TYPE_DATA_REPLY` or the payload kind is not `MSG_HAVE_RESOLUTION`,
`hwc_open` returns `-EINVAL`, whatever the receive returned; when tag and kind
match and the receive returned a negative code, that code is returned; and a
negative value other than `-EINVAL` is returned only when tag and kind match,
and is then the receive's code. No session is stored in any of these cases. -/
theorem hwc_open_kind_check_first (env : OpenEnv) (name : String) :
    ((env.recv_type ≠ MessageType.MSG_TYPE_DATA_REPLY ∨
        env.recv_message.type ≠ MessageKind.MSG_HAVE_RESOLUTION) →
      (hwc_open env name).ret = -EINVAL ∧ (hwc_open env name).device = none) ∧
    (name = HWC_HARDWARE_COMPOSER →
      env.recv_type = MessageType.MSG_TYPE_DATA_REPLY →
      env.recv_message.type = MessageKind.MSG_HAVE_RESOLUTION →
      env.recv_ret < 0 →
      (hwc_open env name).ret = env.recv_ret ∧ (hwc_open env name).device = none) ∧
    ((hwc_open env name).ret < 0 → (hwc_open env name).ret ≠ -EINVAL →
      env.recv_type = MessageType.MSG_TYPE_DATA_REPLY ∧
      env.recv_message.type = MessageKind.MSG_HAVE_RESOLUTION ∧
      (hwc_open env name).ret = env.recv_ret ∧ (hwc_open env name).device = none) := by
  have hret := hwc_open_ret env name
  have hnone := hwc_open_device_none env name
  refine ⟨fun hk => ?_, fun hn ht hkd hr => ?_, fun hneg hne => ?_⟩
  · refine ⟨?_, hnone.1.2 ?_⟩
    · rw [hret]
      by_cases hn : name ≠ HWC_HARDWARE_COMPOSER
      · rw [if_pos hn]
      · rw [if_neg hn, if_pos hk]
    · rcases hk with hk | hk
      · exact Or.inr (Or.inl hk)
      · exact Or.inr (Or.inr (Or.inl hk))
  · refine ⟨?_, hnone.1.2 (Or.inr (Or.inr (Or.inr (Or.inl hr))))⟩
    rw [hret, if_neg (fun hc => hc hn),
      if_neg (fun hc => hc.elim (fun h => h ht) (fun h => h hkd)), if_pos hr]
  · rw [hret] at hneg hne
    by_cases hn : name ≠ HWC_HARDWARE_COMPOSER
    · rw [if_pos hn] at hne
      exact absurd rfl hne
    · rw [if_neg hn] at hneg hne
      by_cases hk : env.recv_type ≠ MessageType.MSG_TYPE_DATA_REPLY ∨
          env.recv_message.type ≠ MessageKind.MSG_HAVE_RESOLUTION
      · rw [if_pos hk] at hne
        exact absurd rfl hne
      · rw [if_neg hk] at hneg hne
        have ht : env.recv_type = MessageType.MSG_TYPE_DATA_REPLY :=
          not_not.1 (fun hc => hk (Or.inl hc))
        have hkd : env.recv_message.type = MessageKind.MSG_HAVE_RESOLUTION :=
          not_not.1 (fun hc => hk (Or.inr hc))
        by_cases hr : env.recv_ret < 0
        · refine ⟨ht, hkd, ?_, hnone.1.2 (Or.inr (Or.inr (Or.inr (Or.inl hr))))⟩
          rw [hret, if_neg hn, if_neg hk, if_pos hr]
        · rw [if_neg hr] at hneg hne
          by_cases hv : toInt32 env.recv_message.width ≤ 0 ∨
              toInt32 env.recv_message.height ≤ 0 ∨
              toInt32 env.recv_message.refresh_rate ≤ 0
          · rw [if_pos hv] at hne
            exact absurd rfl hne
          · rw [if_neg hv] at hneg
            omega

/-- C17, on a receive that fails with -5. With a mistagged reply `hwc_open`
returns -22, not -5; with a well-tagged reply it returns -5. -/
theorem hwc_open_kind_check_first_witness :
    ((hwc_open { fake_server 1920 1080 60000 with
        recv_ret := -5, recv_type := MessageType.MSG_TYPE_DATA } "composer").ret = -EINVAL ∧
      (hwc_open { fake_server 1920 1080 60000 with
        recv_ret := -5, recv_type := MessageType.MSG_TYPE_DATA } "composer").device = none) ∧
    ((hwc_open { fake_server 1920 1080 60000 with recv_ret := -5 } "composer").ret = -5 ∧
      (hwc_open { fake_server 1920 1080 60000 with recv_ret := -5 } "composer").device
        = none) :=
  ⟨(hwc_open_kind_check_first { fake_server 1920 1080 60000 with
      recv_ret := -5, recv_type := MessageType.MSG_TYPE_DATA } "composer").1
      (Or.inl (by decide)),
   (hwc_open_kind_check_first { fake_server 1920 1080 60000 with recv_ret := -5 }
      "composer").2.1 (by decide) (by decide) (by decide) (by decide)⟩

end Playdroid
